import Mathlib

/-!
# PyPolyChord: the marshalling layer between the host interpreter and the engine

A shallow embedding of `src/PyPolyChord/_PyPolyChord.cpp`.

Modelling conventions.

* A C `double` is carried as an uninterpreted bit pattern (`CDouble`); the code only
  ever copies doubles, it never computes with them.
* A C `int` is an `Int` kept in the range `[-2^31, 2^31)`; a C `long` is 64 bits wide.
  Narrowing `long → int` and `int` addition wrap modulo `2^32` (`toCInt`).
* A native buffer (`double*`, `int*`) is the list of its cells; its length is its
  capacity.  An access at an index outside the capacity has no defined behaviour and
  is reported as `Completion.undefined`.
* A C++ function either returns, throws `PythonException`, or has no defined
  behaviour; in the first two cases the memory it was mutating is reported
  (`Completion`).
* Host objects are values of `PyObj`.  The calls into the interpreter that run host
  code (`PyObject_CallFunctionObjArgs`) and the external engine (`run_polychord`)
  are parameters of the model.  Host allocation never fails, and sequence lengths
  fit the `int` loop counters.
* `Py_INCREF` / `Py_DECREF` calls are recorded, in program order, as a list of
  `RefOp`; `PyErr_SetString` calls are recorded as the `PyErr` they set.
* The preprocessor switch `PYTHON3` is a Boolean parameter.
-/

namespace PyPolyChord

/-! ## Native values -/

/-- A C `double`, as its binary64 bit pattern. -/
structure CDouble where
  bits : Nat
deriving DecidableEq, Repr

/-- Smallest C `int` (32 bits). -/
def INT_MIN : Int := -2147483648

/-- Largest C `int`. -/
def INT_MAX : Int := 2147483647

/-- Smallest C `long` (64 bits). -/
def LONG_MIN : Int := -9223372036854775808

/-- Largest C `long` (64 bits). -/
def LONG_MAX : Int := 9223372036854775807

/-- Conversion of an integer value to C `int`: reduction modulo `2^32` into
`[-2^31, 2^31)`.  Used for the implicit `long → int` narrowing of
`array[i] = PyLong_AsLong(obj)` and for `int` addition. -/
def toCInt (v : Int) : Int :=
  (v + 2147483648) % 4294967296 - 2147483648

/-! ## Host objects and the interpreter API used by the source -/

/-- Host (Python) objects, as far as the bridge inspects them. -/
inductive PyObj where
  /-- `None` -/
  | noneObj
  /-- a `float` object holding a C double -/
  | float (v : CDouble)
  /-- a Python 2 plain `int` (holds a C long) -/
  | int (v : Int)
  /-- an arbitrary-precision integer (Python 2 `long`, Python 3 `int`) -/
  | long (v : Int)
  /-- a string -/
  | str (s : String)
  /-- a `list`, by its items -/
  | list (items : List PyObj)
  /-- a `tuple`, by its items -/
  | tuple (items : List PyObj)
  /-- a `dict`, by its entries in iteration order -/
  | dict (entries : List (PyObj × PyObj))
  /-- any other object (for instance a callable), by its identity -/
  | other (id : Nat)

/-- The host exception types the bridge raises. -/
inductive PyExcType where
  | TypeError
  | ValueError
deriving DecidableEq, Repr

/-- The error indicator set by a `PyErr_SetString(type, message)` call. -/
structure PyErr where
  exc : PyExcType
  message : String
deriving DecidableEq, Repr

/-- A reference-count operation on a host object. -/
inductive RefOp where
  | incref (o : PyObj)
  | decref (o : PyObj)

/-- `PyFloat_Check` -/
def PyFloat_Check : PyObj → Bool
  | .float _ => true
  | _ => false

/-- `PyInt_Check` (Python 2 only) -/
def PyInt_Check : PyObj → Bool
  | .int _ => true
  | _ => false

/-- `PyLong_Check` -/
def PyLong_Check : PyObj → Bool
  | .long _ => true
  | _ => false

/-- `PyList_Check` -/
def PyList_Check : PyObj → Bool
  | .list _ => true
  | _ => false

/-- `PyTuple_Check` -/
def PyTuple_Check : PyObj → Bool
  | .tuple _ => true
  | _ => false

/-- `PyFloat_AsDouble`.  The source calls it on `float` objects only; on anything
else the value here is `-1.0`, the interpreter's failure value. -/
def PyFloat_AsDouble : PyObj → CDouble
  | .float v => v
  | _ => ⟨0xBFF0000000000000⟩

/-- `PyLong_AsLong`: the value when it fits a C `long`, otherwise `-1` (the
interpreter also sets `OverflowError`, which the source never inspects). -/
def PyLong_AsLong : PyObj → Int
  | .long v => if LONG_MIN ≤ v ∧ v ≤ LONG_MAX then v else -1
  | .int v => v
  | _ => -1

/-- `PyInt_AsLong` (Python 2): the value of a plain `int`; a `long` is converted
as by `PyLong_AsLong`. -/
def PyInt_AsLong : PyObj → Int
  | .int v => v
  | .long v => if LONG_MIN ≤ v ∧ v ≤ LONG_MAX then v else -1
  | _ => -1

/-- `PyList_Size`: the length of a list, `-1` for any other object. -/
def PyList_Size : PyObj → Int
  | .list items => items.length
  | _ => -1

/-- `PyTuple_Size`: the length of a tuple, `-1` for any other object. -/
def PyTuple_Size : PyObj → Int
  | .tuple items => items.length
  | _ => -1

/-- `PyTuple_GetItem`: `none` is the `NULL` returned for a bad index or a
non-tuple. -/
def PyTuple_GetItem : PyObj → Nat → Option PyObj
  | .tuple items, i => items.get? i
  | _, _ => none

/-- The items `PyList_GET_ITEM` ranges over while `i < PyList_Size(list)`: the
items of a list, nothing for any other object (`PyList_Size` is `-1`). -/
def listItems : PyObj → List PyObj
  | .list items => items
  | _ => []

/-- The entries `PyDict_Next` yields, in iteration order; nothing for a
non-dict. -/
def dictEntries : PyObj → List (PyObj × PyObj)
  | .dict entries => entries
  | _ => []

/-! ## Outcomes -/

/-- How a call into the bridge ends: it returns a value, it throws
`PythonException`, or its behaviour is undefined (an access outside a buffer, a
`NULL` dereference).  `state` is the memory the call was working on. -/
inductive Completion (ρ σ : Type) where
  | returned (value : ρ) (state : σ)
  | threw (state : σ)
  | undefined

/-! ## Type coercion layer (source lines 57–114) -/

/-- Loop of `list_C2Py`: `remaining` iterations are left, the next index is `i`.
`none` is a read past the end of `array`. -/
def list_C2Py_loop (array : List CDouble) : Nat → Nat → Option (List PyObj)
  | 0, _ => some []
  | remaining + 1, i =>
    match array.get? i with
    | none => none
    | some x =>
      match list_C2Py_loop array remaining (i + 1) with
      | none => none
      | some items => some (PyObj.float x :: items)

/-- `list_C2Py(array, n)`: a new list of `n` floats.  For `n < 0`, `PyList_New`
returns `NULL` and `PyList_Size(NULL)` dereferences it: `none`. -/
def list_C2Py (array : List CDouble) (n : Int) : Option PyObj :=
  if n < 0 then none
  else
    match list_C2Py_loop array n.toNat 0 with
    | none => none
    | some items => some (PyObj.list items)

/-- Loop of `list_Py2C(PyObject*, double*)` from index `i` on. -/
def list_Py2C_double_loop : List PyObj → Nat → List CDouble → Completion Unit (List CDouble)
  | [], _, array => .returned () array
  | obj :: rest, i, array =>
    if !PyFloat_Check obj then .threw array
    else if i < array.length then
      list_Py2C_double_loop rest (i + 1) (array.set i (PyFloat_AsDouble obj))
    else .undefined

/-- `list_Py2C(PyObject* list, double* array)` -/
def list_Py2C_double (list : PyObj) (array : List CDouble) : Completion Unit (List CDouble) :=
  list_Py2C_double_loop (listItems list) 0 array

/-- The integer conversion block under `#ifdef PYTHON3`, written out twice in the
source (in `list_Py2C(PyObject*, int*)` and in `dict_Py2C`): the C `int` stored
for `obj`, or `none` when the block throws. -/
def intOfItem (PYTHON3 : Bool) (obj : PyObj) : Option Int :=
  if PYTHON3 then
    if !PyLong_Check obj then none
    else some (toCInt (PyLong_AsLong obj))
  else
    if PyInt_Check obj then some (toCInt (PyInt_AsLong obj))
    else if PyLong_Check obj then some (toCInt (PyInt_AsLong obj))
    else none

/-- Loop of `list_Py2C(PyObject*, int*)` from index `i` on. -/
def list_Py2C_int_loop (PYTHON3 : Bool) : List PyObj → Nat → List Int → Completion Unit (List Int)
  | [], _, array => .returned () array
  | obj :: rest, i, array =>
    match intOfItem PYTHON3 obj with
    | none => .threw array
    | some v =>
      if i < array.length then list_Py2C_int_loop PYTHON3 rest (i + 1) (array.set i v)
      else .undefined

/-- `list_Py2C(PyObject* list, int* array)` -/
def list_Py2C_int (PYTHON3 : Bool) (list : PyObj) (array : List Int) : Completion Unit (List Int) :=
  list_Py2C_int_loop PYTHON3 (listItems list) 0 array

/-- Loop of `dict_Py2C` from index `i` on: the value is checked and stored first,
then the key. -/
def dict_Py2C_loop (PYTHON3 : Bool) :
    List (PyObj × PyObj) → Nat → List CDouble → List Int →
      Completion Unit (List CDouble × List Int)
  | [], _, loglikes, nlives => .returned () (loglikes, nlives)
  | (key, value) :: rest, i, loglikes, nlives =>
    match intOfItem PYTHON3 value with
    | none => .threw (loglikes, nlives)
    | some v =>
      if i < nlives.length then
        if PyFloat_Check key then
          if i < loglikes.length then
            dict_Py2C_loop PYTHON3 rest (i + 1)
              (loglikes.set i (PyFloat_AsDouble key)) (nlives.set i v)
          else .undefined
        else .threw (loglikes, nlives.set i v)
      else .undefined

/-- `dict_Py2C(dict, loglikes, nlives)` -/
def dict_Py2C (PYTHON3 : Bool) (dict : PyObj) (loglikes : List CDouble) (nlives : List Int) :
    Completion Unit (List CDouble × List Int) :=
  dict_Py2C_loop PYTHON3 (dictEntries dict) 0 loglikes nlives

/-! ## Callback adapters (source lines 116–206) -/

/-- What a callback adapter leaves behind: the output buffer (`phi`, `theta`),
the error it set with `PyErr_SetString` (if any), and its `Py_DECREF` calls in
program order. -/
structure CallbackState where
  out : List CDouble
  err : Option PyErr
  refs : List RefOp

/-- `loglikelihood(theta, nDims, phi, nDerived)`.

`call` is `PyObject_CallFunctionObjArgs` with one argument (`none` is a `NULL`
return: the callable raised), `python_loglikelihood` the global read by the
adapter. -/
def loglikelihood (call : Option PyObj → PyObj → Option PyObj)
    (python_loglikelihood : Option PyObj)
    (theta : List CDouble) (nDims : Int) (phi : List CDouble) (nDerived : Int) :
    Completion CDouble CallbackState :=
  match list_C2Py theta nDims with
  | none => .undefined
  | some list_theta =>
    match call python_loglikelihood list_theta with
    | none => .threw ⟨phi, none, [.decref list_theta]⟩
    | some answer =>
      if !PyTuple_Check answer || PyTuple_Size answer != 2 then
        .threw ⟨phi,
          some ⟨.TypeError, "Return from loglikelihood must be a tuple of (loglikelihood, [derived parameters])"⟩,
          [.decref list_theta, .decref answer]⟩
      else
        match PyTuple_GetItem answer 0, PyTuple_GetItem answer 1 with
        | some py_logL, some py_derived =>
          if !PyFloat_Check py_logL then
            .threw ⟨phi,
              some ⟨.TypeError, "loglikelihood must be a float (element 0 of loglikelihood return)"⟩,
              [.decref list_theta, .decref answer]⟩
          else
            let logL := PyFloat_AsDouble py_logL
            if !PyList_Check py_derived then
              .threw ⟨phi,
                some ⟨.TypeError, "Derived parameters must be a list (element 1 of loglikelihood return)"⟩,
                [.decref list_theta, .decref answer]⟩
            else if PyList_Size py_derived != nDerived then
              .threw ⟨phi,
                some ⟨.ValueError, "Derived parameters must have length nDerived (element 1 of loglikelihood return)"⟩,
                [.decref list_theta, .decref answer]⟩
            else
              match list_Py2C_double py_derived phi with
              | .undefined => .undefined
              | .threw phi1 =>
                .threw ⟨phi1,
                  some ⟨.TypeError, "Derived parameters must be a list of floats (element 1 of loglikelihood return)"⟩,
                  []⟩
              | .returned _ phi1 =>
                .returned logL ⟨phi1, none, [.decref list_theta, .decref answer]⟩
        | _, _ => .undefined

/-- `prior(cube, theta, nDims)`; `call` and `python_prior` as for
`loglikelihood`. -/
def prior (call : Option PyObj → PyObj → Option PyObj) (python_prior : Option PyObj)
    (cube : List CDouble) (theta : List CDouble) (nDims : Int) :
    Completion Unit CallbackState :=
  match list_C2Py cube nDims with
  | none => .undefined
  | some list_cube =>
    match call python_prior list_cube with
    | none => .threw ⟨theta, none, [.decref list_cube]⟩
    | some list_theta =>
      if !PyList_Check list_theta then
        .threw ⟨theta,
          some ⟨.TypeError, "Physical parameters must be a list (return from prior)"⟩,
          [.decref list_theta, .decref list_cube]⟩
      else if PyList_Size list_theta != nDims then
        .threw ⟨theta,
          some ⟨.ValueError, "Physical parameters must have length nDims (return from prior)"⟩,
          [.decref list_theta, .decref list_cube]⟩
      else
        match list_Py2C_double list_theta theta with
        | .undefined => .undefined
        | .threw theta1 =>
          .threw ⟨theta1,
            some ⟨.TypeError, "Physical parameters must be a list of floats (return from prior)"⟩,
            [.decref list_theta, .decref list_cube]⟩
        | .returned _ theta1 =>
          .returned () ⟨theta1, none, [.decref list_cube, .decref list_theta]⟩

/-! ## Run orchestrator (source lines 209–316) -/

/-- Modelled from the spec: the configuration record `Settings`, declared in
`interfaces.hpp` (not among the sources).  The fields are the ones
`run_PyPolyChord` fills through `PyArg_ParseTuple`, in that order, with the C
type given by the format string (`i` an `int`, `d` a `double`, `s` a string). -/
structure Settings where
  nDims : Int
  nDerived : Int
  nlive : Int
  num_repeats : Int
  nprior : Int
  do_clustering : Int
  feedback : Int
  precision_criterion : CDouble
  max_ndead : Int
  boost_posterior : CDouble
  posteriors : Int
  equals : Int
  cluster_posteriors : Int
  write_resume : Int
  write_paramnames : Int
  read_resume : Int
  write_stats : Int
  write_live : Int
  write_dead : Int
  write_prior : Int
  compression_factor : CDouble
  base_dir : String
  file_root : String
  seed : Int

/-- The values `PyArg_ParseTuple` stores when it succeeds.  The `O!` items are
checked against `PyList_Type` / `PyDict_Type` by the parser, so the two grade
arguments are lists (given by their items) and `py_nlives` is a dict (given by
its entries). -/
structure RunArgs where
  temp_logl : PyObj
  temp_prior : PyObj
  S : Settings
  py_grade_frac : List PyObj
  py_grade_dims : List PyObj
  py_nlives : List (PyObj × PyObj)

/-- How the external engine `run_polychord` ends, as far as `run_PyPolyChord`
distinguishes: it returns, or a `PythonException` comes out of it. -/
inductive EngineExit where
  | completed
  | threw

/-- The signature under which the engine receives `loglikelihood`. -/
abbrev LoglikelihoodFn :=
  List CDouble → Int → List CDouble → Int → Completion CDouble CallbackState

/-- The signature under which the engine receives `prior`. -/
abbrev PriorFn := List CDouble → List CDouble → Int → Completion Unit CallbackState

/-- The two file-level globals `python_loglikelihood` and `python_prior`
(`none` is `NULL`). -/
structure Registry where
  python_loglikelihood : Option PyObj
  python_prior : Option PyObj

/-- What one `run_PyPolyChord` call leaves behind: the globals, the error it set
with `PyErr_SetString` (if any), its `Py_INCREF` / `Py_DECREF` calls in program
order, and whether `run_polychord` was called. -/
structure RunState where
  registry : Registry
  err : Option PyErr
  refs : List RefOp
  engine_called : Bool

/-- `int tot = 0; for (int i=0;i<nGrade;i++) tot += grade_dims[i];` over the
cells still to be read. -/
def sumLoop : List Int → Int → Int
  | [], tot => tot
  | x :: rest, tot => sumLoop rest (toCInt (tot + x))

/-- `Py_XDECREF(p)`: a `Py_DECREF` unless `p` is `NULL`. -/
def Py_XDECREF : Option PyObj → List RefOp
  | none => []
  | some o => [.decref o]

/-- Lines 291–315 of `run_PyPolyChord`: the schedule conversion, the install of
the two callables and the engine call.  `refs0` are the reference-count
operations made before line 291. -/
def run_PyPolyChord_tail (PYTHON3 : Bool) (call : Option PyObj → PyObj → Option PyObj)
    (run_polychord : LoglikelihoodFn → PriorFn → Settings → EngineExit)
    (reg : Registry) (a : RunArgs) (refs0 : List RefOp) :
    Completion (Option PyObj) RunState :=
  let py_grade_frac := PyObj.list a.py_grade_frac
  let py_grade_dims := PyObj.list a.py_grade_dims
  let py_nlives := PyObj.dict a.py_nlives
  let n_nlives := a.py_nlives.length
  let loglikes : List CDouble := List.replicate n_nlives ⟨0⟩
  let nlives : List Int := List.replicate n_nlives 0
  match dict_Py2C PYTHON3 py_nlives loglikes nlives with
  | .undefined => .undefined
  | .threw _ =>
    .returned none
      ⟨reg, some ⟨.TypeError, "nlives must be a dict mapping floats to integers"⟩,
        refs0 ++ [.decref py_nlives], false⟩
  | .returned _ _ =>
    let refs1 : List RefOp :=
      refs0 ++ [.incref a.temp_logl] ++ Py_XDECREF reg.python_loglikelihood
        ++ [.incref a.temp_prior] ++ Py_XDECREF reg.python_prior
    let reg1 : Registry := ⟨some a.temp_logl, some a.temp_prior⟩
    match run_polychord (loglikelihood call reg1.python_loglikelihood)
        (prior call reg1.python_prior) a.S with
    | .threw =>
      .returned none ⟨reg1, none,
        refs1 ++ [.decref py_grade_frac, .decref py_grade_dims,
          .decref a.temp_logl, .decref a.temp_prior], true⟩
    | .completed =>
      .returned (some .noneObj) ⟨reg1, none, refs1 ++ [.incref .noneObj], true⟩

/-- `run_PyPolyChord(self, args)`.

`parsed` is the outcome of `PyArg_ParseTuple` (`none`: it failed), `reg` the
globals on entry, `run_polychord` the external engine.  The returned value is
the `PyObject*` result: `none` for `NULL`, `some .noneObj` for `Py_RETURN_NONE`.
The stack arrays have `nGrade` resp. `n_nlives` cells; their initial contents are
never read and are taken as zero.  Lines 291–315 are `run_PyPolyChord_tail`. -/
def run_PyPolyChord (PYTHON3 : Bool) (call : Option PyObj → PyObj → Option PyObj)
    (run_polychord : LoglikelihoodFn → PriorFn → Settings → EngineExit)
    (reg : Registry) (parsed : Option RunArgs) :
    Completion (Option PyObj) RunState :=
  match parsed with
  | none => .returned none ⟨reg, none, [], false⟩
  | some a =>
    let py_grade_frac := PyObj.list a.py_grade_frac
    let py_grade_dims := PyObj.list a.py_grade_dims
    let py_nlives := PyObj.dict a.py_nlives
    let nGrade := (PyList_Size py_grade_frac).toNat
    let grade_frac : List CDouble := List.replicate nGrade ⟨0⟩
    let grade_dims : List Int := List.replicate nGrade 0
    let refs0 : List RefOp :=
      [.incref py_grade_frac, .incref py_grade_dims, .incref py_nlives]
    match list_Py2C_double py_grade_frac grade_frac with
    | .undefined => .undefined
    | .threw _ =>
      .returned none ⟨reg, some ⟨.TypeError, "grade_frac must be a list of doubles"⟩,
        refs0 ++ [.decref py_grade_frac, .decref py_grade_dims], false⟩
    | .returned _ _ =>
      match list_Py2C_int PYTHON3 py_grade_dims grade_dims with
      | .undefined => .undefined
      | .threw _ =>
        .returned none ⟨reg, some ⟨.TypeError, "grade_dims must be a list of integers"⟩,
          refs0 ++ [.decref py_grade_frac, .decref py_grade_dims], false⟩
      | .returned _ grade_dims1 =>
        if PyList_Size py_grade_frac != PyList_Size py_grade_dims then
          .returned none
            ⟨reg, some ⟨.ValueError, "grade_dims and grade_frac must have the same size"⟩,
              refs0 ++ [.decref py_grade_frac, .decref py_grade_dims], false⟩
        else
          let tot := sumLoop (grade_dims1.take nGrade) 0
          if tot != a.S.nDims then
            .returned none ⟨reg, some ⟨.ValueError, "grade_dims must sum to nDims"⟩, refs0, false⟩
          else
            run_PyPolyChord_tail PYTHON3 call run_polychord reg a refs0

/-! ## Notions used to state the properties -/

/-- The integer a host object denotes, when it is an integer object of the build:
an arbitrary-precision integer in either build, a plain `int` under Python 2
(Python 3 has no such objects). -/
def hostInteger (PYTHON3 : Bool) : PyObj → Option Int
  | .long v => some v
  | .int v => if PYTHON3 then none else some v
  | _ => none

/-- The conversion `list_Py2C(PyObject*, double*)` applies to one item: the
double of a `float` object, `none` where the function throws. -/
def doubleOfItem (obj : PyObj) : Option CDouble :=
  if !PyFloat_Check obj then none else some (PyFloat_AsDouble obj)

/-- The common shape of the two `list_Py2C` loops, over the per-item conversion
`conv`; the loops are shown equal to it below. -/
def storeLoop {α : Type} (conv : PyObj → Option α) :
    List PyObj → Nat → List α → Completion Unit (List α)
  | [], _, array => .returned () array
  | obj :: rest, i, array =>
    match conv obj with
    | none => .threw array
    | some v =>
      if i < array.length then storeLoop conv rest (i + 1) (array.set i v)
      else .undefined

/-- The sum of the entries of a host list read as host integers (exact, of any
magnitude); entries that are not integers do not count. -/
def hostSum (PYTHON3 : Bool) (items : List PyObj) : Int :=
  (items.filterMap (hostInteger PYTHON3)).sum

/-- A configuration record with the given `nDims`, for concrete runs. -/
def exampleSettings (nDims : Int) : Settings :=
  { nDims := nDims, nDerived := 0, nlive := 25, num_repeats := 5, nprior := -1,
    do_clustering := 1, feedback := 1, precision_criterion := ⟨0⟩, max_ndead := -1,
    boost_posterior := ⟨0⟩, posteriors := 1, equals := 1, cluster_posteriors := 1,
    write_resume := 1, write_paramnames := 0, read_resume := 1, write_stats := 1,
    write_live := 1, write_dead := 1, write_prior := 1, compression_factor := ⟨0⟩,
    base_dir := "chains", file_root := "test", seed := -1 }

/-- The conversion of `grade_frac` as `run_PyPolyChord` performs it (line 269):
into the stack array `double grade_frac[nGrade]`. -/
def gradeFracConversion (a : RunArgs) : Completion Unit (List CDouble) :=
  list_Py2C_double (PyObj.list a.py_grade_frac)
    (List.replicate a.py_grade_frac.length ⟨0⟩)

/-- The conversion of `grade_dims` as `run_PyPolyChord` performs it (line 275):
into the stack array `int grade_dims[nGrade]`, whose size is the length of
`grade_frac`. -/
def gradeDimsConversion (PYTHON3 : Bool) (a : RunArgs) : Completion Unit (List Int) :=
  list_Py2C_int PYTHON3 (PyObj.list a.py_grade_dims)
    (List.replicate a.py_grade_frac.length 0)

/-- The conversion of `nlives` as `run_PyPolyChord` performs it (line 291): into
the stack arrays `loglikes[n_nlives]` and `nlives[n_nlives]`. -/
def scheduleConversion (PYTHON3 : Bool) (a : RunArgs) :
    Completion Unit (List CDouble × List Int) :=
  dict_Py2C PYTHON3 (PyObj.dict a.py_nlives)
    (List.replicate a.py_nlives.length ⟨0⟩) (List.replicate a.py_nlives.length 0)

/-- The reference-count operations `run_PyPolyChord` makes on entry (lines 262
and 267) on its three container arguments. -/
def entryRefs (a : RunArgs) : List RefOp :=
  [.incref (PyObj.list a.py_grade_frac), .incref (PyObj.list a.py_grade_dims),
   .incref (PyObj.dict a.py_nlives)]

/-- An external engine, as `run_PyPolyChord` sees it. -/
abbrev Engine := LoglikelihoodFn → PriorFn → Settings → EngineExit

/-- A sequence of `run_PyPolyChord` calls, each with its own engine and its own
parsed arguments.  The globals left by one call are the globals the next call
finds; the result is the final globals and all reference-count operations in
program order, or `none` when some call has no defined behaviour. -/
def runSequence (PYTHON3 : Bool) (call : Option PyObj → PyObj → Option PyObj) :
    Registry → List (Engine × Option RunArgs) → Option (Registry × List RefOp)
  | reg, [] => some (reg, [])
  | reg, (engine, parsed) :: rest =>
    match run_PyPolyChord PYTHON3 call engine reg parsed with
    | .returned _ st =>
      match runSequence PYTHON3 call st.registry rest with
      | some (reg1, refs) => some (reg1, st.refs ++ refs)
      | none => none
    | .threw _ => none
    | .undefined => none

/-- Whether an operation is a `Py_INCREF` of the object of identity `id`. -/
def isIncrefOf (id : Nat) : RefOp → Bool
  | .incref (.other j) => j == id
  | _ => false

/-- Whether an operation is a `Py_DECREF` of the object of identity `id`. -/
def isDecrefOf (id : Nat) : RefOp → Bool
  | .decref (.other j) => j == id
  | _ => false

/-- How many times a trace acquires a reference to the object of identity `id`. -/
def acquisitions (id : Nat) (refs : List RefOp) : Nat :=
  (refs.filter (isIncrefOf id)).length

/-- How many times a trace releases a reference to the object of identity `id`. -/
def releases (id : Nat) (refs : List RefOp) : Nat :=
  (refs.filter (isDecrefOf id)).length

/-! ## Lemmas on the conversion loops -/

/-- The real-buffer loop is the common loop over `doubleOfItem`. -/
theorem list_Py2C_double_loop_eq (items : List PyObj) (i : Nat) (array : List CDouble) :
    list_Py2C_double_loop items i array = storeLoop doubleOfItem items i array := by
  induction items generalizing i array with
  | nil => rfl
  | cons obj rest ih =>
    unfold list_Py2C_double_loop storeLoop
    cases h : PyFloat_Check obj <;> simp [ih, doubleOfItem, h]

/-- The integer-buffer loop is the common loop over `intOfItem`. -/
theorem list_Py2C_int_loop_eq (PYTHON3 : Bool) (items : List PyObj) (i : Nat)
    (array : List Int) :
    list_Py2C_int_loop PYTHON3 items i array = storeLoop (intOfItem PYTHON3) items i array := by
  induction items generalizing i array with
  | nil => rfl
  | cons obj rest ih =>
    unfold list_Py2C_int_loop storeLoop
    cases h : intOfItem PYTHON3 obj <;> simp [ih]

/-- Writing cell `i` and then the cells after it, seen as one splice. -/
theorem set_splice {α : Type} (array vals : List α) (v : α) (i : Nat) (hi : i < array.length) :
    (array.set i v).take (i + 1) ++ vals ++ (array.set i v).drop (i + 1 + vals.length)
      = array.take i ++ (v :: vals) ++ array.drop (i + (vals.length + 1)) := by
  have h1 : (array.set i v).take (i + 1) = array.take i ++ [v] := by
    rw [List.take_succ, List.set_take, List.set_eq_of_length_le (by simp)]
    simp [hi]
  have h2 : (array.set i v).drop (i + 1 + vals.length) = array.drop (i + (vals.length + 1)) := by
    rw [List.drop_set_of_lt]
    · congr 1; omega
    · omega
  rw [h1, h2]; simp

/-- A run of convertible items `pre` is stored in place, and the loop goes on
with what follows. -/
theorem storeLoop_append {α : Type} (conv : PyObj → Option α) (pre : List PyObj) :
    ∀ (vals : List α) (rest : List PyObj) (i : Nat) (array : List α),
      pre.map conv = vals.map some → i + pre.length ≤ array.length →
      storeLoop conv (pre ++ rest) i array
        = storeLoop conv rest (i + pre.length)
            (array.take i ++ vals ++ array.drop (i + pre.length)) := by
  induction pre with
  | nil =>
    intro vals rest i array hv _
    cases vals with
    | nil => simp
    | cons v vs => simp at hv
  | cons obj pre ih =>
    intro vals rest i array hv hcap
    cases vals with
    | nil => simp at hv
    | cons v vs =>
      simp only [List.map_cons, List.cons.injEq] at hv
      obtain ⟨hv1, hv2⟩ := hv
      have hlen : pre.length = vs.length := by
        have := congrArg List.length hv2
        simpa using this
      have hi : i < array.length := by simp at hcap; omega
      simp only [List.cons_append, storeLoop, hv1, hi, if_true]
      show storeLoop conv (pre ++ rest) (i + 1) (array.set i v) = _
      rw [ih vs rest (i + 1) (array.set i v) hv2 (by simp at hcap ⊢; omega)]
      rw [hlen, set_splice array vs v i hi]
      simp only [List.length_cons, hlen]
      congr 1; omega

/-- Items that all convert have a list of converted values. -/
theorem exists_vals {α : Type} (conv : PyObj → Option α) (items : List PyObj)
    (h : ∀ o ∈ items, ∃ v, conv o = some v) :
    ∃ vals : List α, items.map conv = vals.map some := by
  induction items with
  | nil => exact ⟨[], rfl⟩
  | cons o rest ih =>
    obtain ⟨v, hv⟩ := h o (List.mem_cons_self _ _)
    obtain ⟨vs, hvs⟩ := ih (fun x hx => h x (List.mem_cons_of_mem _ hx))
    exact ⟨v :: vs, by simp [hv, hvs]⟩

/-- The converted values are as many as the items. -/
theorem vals_length {α : Type} (conv : PyObj → Option α) (items : List PyObj) (vals : List α)
    (h : items.map conv = vals.map some) : vals.length = items.length := by
  have := congrArg List.length h
  simpa using this.symm

/-- The converted value at an index is the conversion of the item there. -/
theorem vals_getElem? {α : Type} (conv : PyObj → Option α) (items : List PyObj) (vals : List α)
    (h : items.map conv = vals.map some) (i : Nat) (o : PyObj) (ho : items[i]? = some o) :
    vals[i]? = conv o := by
  have h1 : (items.map conv)[i]? = (vals.map some)[i]? := by rw [h]
  simp only [List.getElem?_map, ho, Option.map_some'] at h1
  cases hv : vals[i]? with
  | none => simp [hv] at h1
  | some v => simp [hv] at h1; exact h1.symm

/-- Filtering the converted items gives the converted values. -/
theorem filterMap_of_map {α : Type} (conv : PyObj → Option α) (items : List PyObj)
    (vals : List α) (h : items.map conv = vals.map some) : items.filterMap conv = vals := by
  induction items generalizing vals with
  | nil => cases vals <;> simp_all
  | cons o rest ih =>
    cases vals with
    | nil => simp at h
    | cons v vs =>
      simp only [List.map_cons, List.cons.injEq] at h
      simp [List.filterMap_cons, h.1, ih vs h.2]

/-- When every item converts and the buffer has room, the loop returns with the
converted values in front of the untouched cells. -/
theorem storeLoop_all {α : Type} (conv : PyObj → Option α) (items : List PyObj)
    (vals array : List α) (h : items.map conv = vals.map some)
    (hcap : items.length ≤ array.length) :
    storeLoop conv items 0 array = .returned () (vals ++ array.drop items.length) := by
  have := storeLoop_append conv items vals [] 0 array h (by omega)
  simpa [storeLoop] using this

/-- The loop throws at the first item that does not convert, with the items
before it stored. -/
theorem storeLoop_fail {α : Type} (conv : PyObj → Option α) (pre post : List PyObj)
    (bad : PyObj) (vals array : List α) (h : pre.map conv = vals.map some)
    (hbad : conv bad = none) (hcap : pre.length ≤ array.length) :
    storeLoop conv (pre ++ bad :: post) 0 array = .threw (vals ++ array.drop pre.length) := by
  have := storeLoop_append conv pre vals (bad :: post) 0 array h (by omega)
  simpa [storeLoop, hbad] using this

/-- A loop that returns has converted every item. -/
theorem storeLoop_returned {α : Type} (conv : PyObj → Option α) (items : List PyObj) :
    ∀ (i : Nat) (array out1 : List α), storeLoop conv items i array = .returned () out1 →
      ∀ o ∈ items, ∃ v, conv o = some v := by
  induction items with
  | nil => intro _ _ _ _ o ho; simp at ho
  | cons obj rest ih =>
    intro i array out1 hret o ho
    unfold storeLoop at hret
    cases hc : conv obj with
    | none => simp [hc] at hret
    | some v =>
      simp only [hc] at hret
      by_cases hi : i < array.length
      · simp only [hi, if_true] at hret
        rcases List.mem_cons.mp ho with rfl | hmem
        · exact ⟨v, hc⟩
        · exact ih _ _ _ hret o hmem
      · simp [hi] at hret

/-- With room for all items, an item that does not convert makes the loop
throw. -/
theorem storeLoop_threw {α : Type} (conv : PyObj → Option α) (items : List PyObj) :
    ∀ (i : Nat) (array : List α), (∃ o ∈ items, conv o = none) →
      i + items.length ≤ array.length → ∃ out1, storeLoop conv items i array = .threw out1 := by
  induction items with
  | nil => intro _ _ h; simp at h
  | cons obj rest ih =>
    intro i array hbad hcap
    unfold storeLoop
    cases hc : conv obj with
    | none => exact ⟨array, rfl⟩
    | some v =>
      have hi : i < array.length := by simp at hcap; omega
      simp only [hi, if_true]
      obtain ⟨o, ho, hno⟩ := hbad
      rcases List.mem_cons.mp ho with rfl | hmem
      · rw [hc] at hno; cases hno
      · exact ih (i + 1) (array.set i v) ⟨o, hmem, hno⟩ (by simp at hcap ⊢; omega)

/-- Storing `n` values in front keeps the capacity. -/
theorem splice_length {α : Type} (vals array : List α) (n : Nat) (hv : vals.length = n)
    (hcap : n ≤ array.length) : (vals ++ array.drop n).length = array.length := by
  simp; omega

/-- The first `n` cells hold the stored values. -/
theorem splice_getElem?_lt {α : Type} (vals array : List α) (n i : Nat) (hv : vals.length = n)
    (hi : i < n) : (vals ++ array.drop n)[i]? = vals[i]? := by
  rw [List.getElem?_append_left (by omega)]

/-- The cells from `n` on are untouched. -/
theorem splice_getElem?_ge {α : Type} (vals array : List α) (n i : Nat) (hv : vals.length = n)
    (hi : n ≤ i) : (vals ++ array.drop n)[i]? = array[i]? := by
  rw [List.getElem?_append_right (by omega), List.getElem?_drop]
  congr 1; omega

/-- The `list_C2Py` loop reads `remaining` cells from index `i` on. -/
theorem list_C2Py_loop_eq (array : List CDouble) :
    ∀ (remaining i : Nat), i + remaining ≤ array.length →
      list_C2Py_loop array remaining i
        = some (((array.drop i).take remaining).map PyObj.float) := by
  intro remaining
  induction remaining with
  | zero => intro i _; simp [list_C2Py_loop]
  | succ r ih =>
    intro i h
    have hi : i < array.length := by omega
    unfold list_C2Py_loop
    rw [List.get?_eq_getElem?, List.getElem?_eq_getElem hi]
    simp only [ih (i + 1) (by omega)]
    rw [List.drop_eq_getElem_cons hi, List.take_succ_cons, List.map_cons]

/-- On a buffer with at least `n` cells `list_C2Py` builds the list of its first
`n` cells as floats. -/
theorem list_C2Py_eq (array : List CDouble) (n : Nat) (h : n ≤ array.length) :
    list_C2Py array (n : Int) = some (PyObj.list ((array.take n).map PyObj.float)) := by
  unfold list_C2Py
  have hn : ¬ ((n : Int) < 0) := by omega
  simp only [hn, if_false, Int.toNat_ofNat]
  rw [list_C2Py_loop_eq array n 0 (by omega)]
  simp

/-- A float object converts to its double. -/
theorem doubleOfItem_float (v : CDouble) : doubleOfItem (PyObj.float v) = some v := rfl

/-- An object that is not a float does not convert. -/
theorem doubleOfItem_eq_none (o : PyObj) (h : ∀ v, o ≠ PyObj.float v) :
    doubleOfItem o = none := by
  cases o <;> first | rfl | exact absurd rfl (h _)

/-- Only float objects convert. -/
theorem doubleOfItem_eq_some (o : PyObj) (v : CDouble) (h : doubleOfItem o = some v) :
    o = PyObj.float v := by
  cases o <;> simp [doubleOfItem, PyFloat_Check, PyFloat_AsDouble] at h
  rw [h]

/-- A list of floats converts to its doubles. -/
theorem map_doubleOfItem_float (a : List CDouble) :
    (a.map PyObj.float).map doubleOfItem = a.map some := by
  induction a with
  | nil => rfl
  | cons x xs ih => simp [doubleOfItem_float]

/-- Narrowing keeps a value that fits a C `int`. -/
theorem toCInt_of_range (v : Int) (h1 : INT_MIN ≤ v) (h2 : v ≤ INT_MAX) : toCInt v = v := by
  unfold INT_MIN at h1
  unfold INT_MAX at h2
  unfold toCInt
  omega

/-- Wrapping once at the end is wrapping at every step. -/
theorem toCInt_add (a b : Int) : toCInt (toCInt a + b) = toCInt (a + b) := by
  unfold toCInt
  omega

/-- An integer object whose value fits a C `int` is stored exactly. -/
theorem intOfItem_of_hostInteger (PYTHON3 : Bool) (o : PyObj) (v : Int)
    (h : hostInteger PYTHON3 o = some v) (h1 : INT_MIN ≤ v) (h2 : v ≤ INT_MAX) :
    intOfItem PYTHON3 o = some v := by
  have hl1 : LONG_MIN ≤ v := by unfold INT_MIN at h1; unfold LONG_MIN; omega
  have hl2 : v ≤ LONG_MAX := by unfold INT_MAX at h2; unfold LONG_MAX; omega
  cases PYTHON3 <;> cases o <;>
    simp [hostInteger] at h <;>
    subst h <;>
    simp [intOfItem, PyLong_Check, PyInt_Check, PyLong_AsLong, PyInt_AsLong, hl1, hl2,
      toCInt_of_range _ h1 h2]

/-- An integer object of any magnitude passes the type check. -/
theorem intOfItem_isSome_of_hostInteger (PYTHON3 : Bool) (o : PyObj) (v : Int)
    (h : hostInteger PYTHON3 o = some v) : ∃ w, intOfItem PYTHON3 o = some w := by
  cases PYTHON3 <;> cases o <;>
    simp [hostInteger] at h <;>
    simp [intOfItem, PyLong_Check, PyInt_Check]

/-- An object that is not an integer fails the type check. -/
theorem intOfItem_eq_none (PYTHON3 : Bool) (o : PyObj) (h : hostInteger PYTHON3 o = none) :
    intOfItem PYTHON3 o = none := by
  cases PYTHON3 <;> cases o <;>
    simp [hostInteger] at h <;>
    simp [intOfItem, PyLong_Check, PyInt_Check]

/-- The summation loop computes the wrapped sum. -/
theorem sumLoop_eq (xs : List Int) :
    ∀ t : Int, sumLoop xs (toCInt t) = toCInt (t + xs.sum) := by
  induction xs with
  | nil => intro t; simp [sumLoop]
  | cons x rest ih =>
    intro t
    simp only [sumLoop, toCInt_add, ih, List.sum_cons]
    congr 1; omega

/-- The summation loop computes the exact sum when that fits a C `int`. -/
theorem sumLoop_zero (xs : List Int) (h1 : INT_MIN ≤ xs.sum) (h2 : xs.sum ≤ INT_MAX) :
    sumLoop xs 0 = xs.sum := by
  have h0 : (0 : Int) = toCInt 0 := by unfold toCInt; omega
  rw [h0, sumLoop_eq, Int.zero_add, toCInt_of_range _ h1 h2]

/-- A list of floats converts into a buffer with room for it. -/
theorem grade_frac_converts (frac : List PyObj) (buf : List CDouble)
    (hfrac : ∀ o ∈ frac, ∃ v, o = PyObj.float v) (hcap : frac.length ≤ buf.length) :
    ∃ out1, list_Py2C_double (PyObj.list frac) buf = .returned () out1 := by
  obtain ⟨vals, hvals⟩ := exists_vals doubleOfItem frac (fun o ho => by
    obtain ⟨v, rfl⟩ := hfrac o ho
    exact ⟨v, rfl⟩)
  refine ⟨vals ++ buf.drop frac.length, ?_⟩
  unfold list_Py2C_double
  rw [list_Py2C_double_loop_eq]
  exact storeLoop_all _ _ _ _ hvals hcap

/-- A list of integers converts into a buffer with room for it. -/
theorem grade_dims_converts (PYTHON3 : Bool) (dims : List PyObj) (buf : List Int)
    (hdims : ∀ o ∈ dims, ∃ v, hostInteger PYTHON3 o = some v)
    (hcap : dims.length ≤ buf.length) :
    ∃ out1, list_Py2C_int PYTHON3 (PyObj.list dims) buf = .returned () out1 := by
  obtain ⟨vals, hvals⟩ := exists_vals (intOfItem PYTHON3) dims (fun o ho => by
    obtain ⟨v, hv⟩ := hdims o ho
    exact intOfItem_isSome_of_hostInteger PYTHON3 o v hv)
  refine ⟨vals ++ buf.drop dims.length, ?_⟩
  unfold list_Py2C_int
  rw [list_Py2C_int_loop_eq]
  exact storeLoop_all _ _ _ _ hvals hcap

/-- A list of integers that fit a C `int` fills a buffer of its own length with
their exact values. -/
theorem grade_dims_converts_exact (PYTHON3 : Bool) (dims : List PyObj) (buf : List Int)
    (hdims : ∀ o ∈ dims, ∃ v, hostInteger PYTHON3 o = some v ∧ INT_MIN ≤ v ∧ v ≤ INT_MAX)
    (hcap : dims.length = buf.length) :
    list_Py2C_int PYTHON3 (PyObj.list dims) buf
      = .returned () (dims.filterMap (hostInteger PYTHON3)) := by
  have hconv : dims.map (intOfItem PYTHON3) = dims.map (hostInteger PYTHON3) := by
    apply List.map_congr_left
    intro o ho
    obtain ⟨v, hv, h1, h2⟩ := hdims o ho
    rw [hv]; exact intOfItem_of_hostInteger PYTHON3 o v hv h1 h2
  obtain ⟨vals, hvals⟩ := exists_vals (intOfItem PYTHON3) dims (fun o ho => by
    obtain ⟨v, hv, h1, h2⟩ := hdims o ho
    exact ⟨v, intOfItem_of_hostInteger PYTHON3 o v hv h1 h2⟩)
  have hfm : dims.filterMap (hostInteger PYTHON3) = vals :=
    filterMap_of_map _ _ _ (by rw [← hconv]; exact hvals)
  unfold list_Py2C_int
  rw [list_Py2C_int_loop_eq, hfm]
  have := storeLoop_all _ _ _ buf hvals (by omega)
  rw [hcap, List.drop_length, List.append_nil] at this
  exact this

/-- Nothing after the sum check reports the sum error. -/
theorem run_tail_ne_sum_failure (PYTHON3 : Bool)
    (call : Option PyObj → PyObj → Option PyObj)
    (run_polychord : LoglikelihoodFn → PriorFn → Settings → EngineExit)
    (reg : Registry) (a : RunArgs) (refs0 refs : List RefOp) (st : Registry) (b : Bool) :
    run_PyPolyChord_tail PYTHON3 call run_polychord reg a refs0
      ≠ .returned none ⟨st, some ⟨.ValueError, "grade_dims must sum to nDims"⟩, refs, b⟩ := by
  unfold run_PyPolyChord_tail
  simp only
  split
  · simp
  · simp
  · split <;> simp

/-! ## The claims -/

/-- Claim C1, round trip of the real-buffer conversions.  For every `n ≥ 0` and
every buffer `a` of `n` reals, `list_C2Py` builds a host sequence from `a`, and
`list_Py2C` (double overload) on that sequence and an output buffer `out` with
room for `n` reals returns normally, leaving `out[i] == a[i]` for every `i < n`
(and the cells from `n` on as they were). -/
theorem real_buffer_round_trip (n : Nat) (a out : List CDouble)
    (ha : a.length = n) (hout : n ≤ out.length) :
    ∃ seq out1, list_C2Py a (n : Int) = some seq ∧
      list_Py2C_double seq out = .returned () out1 ∧
      out1.length = out.length ∧
      (∀ i, i < n → out1[i]? = a[i]?) ∧ (∀ i, n ≤ i → out1[i]? = out[i]?) := by
  refine ⟨PyObj.list (a.map PyObj.float), a ++ out.drop n, ?_, ?_, ?_, ?_, ?_⟩
  · rw [list_C2Py_eq a n (by omega), ← ha, List.take_length]
  · unfold list_Py2C_double
    rw [list_Py2C_double_loop_eq]
    have := storeLoop_all doubleOfItem (a.map PyObj.float) a out (map_doubleOfItem_float a)
      (by simp; omega)
    simpa [listItems, ha] using this
  · exact splice_length a out n ha hout
  · intro i hi; exact splice_getElem?_lt a out n i ha hi
  · intro i hi; exact splice_getElem?_ge a out n i ha hi

/-- Claim C1 at the buffer `[1, 2]` (as bit patterns) and a three-cell output
buffer. -/
theorem real_buffer_round_trip_witness :
    ∃ seq out1, list_C2Py [⟨1⟩, ⟨2⟩] ((2 : Nat) : Int) = some seq ∧
      list_Py2C_double seq [⟨0⟩, ⟨0⟩, ⟨7⟩] = .returned () out1 ∧
      out1.length = ([⟨0⟩, ⟨0⟩, ⟨7⟩] : List CDouble).length ∧
      (∀ i, i < 2 → out1[i]? = ([⟨1⟩, ⟨2⟩] : List CDouble)[i]?) ∧
      (∀ i, 2 ≤ i → out1[i]? = ([⟨0⟩, ⟨0⟩, ⟨7⟩] : List CDouble)[i]?) :=
  real_buffer_round_trip 2 [⟨1⟩, ⟨2⟩] [⟨0⟩, ⟨0⟩, ⟨7⟩] rfl (by decide)

/-- Claim C2, the loglikelihood adapter on a well-formed return.  For every
`nDerived ≥ 0`, every real `L` and every list `d` of exactly `nDerived` reals:
if the installed callable, called on the list built from `theta`, returns the
pair `(L, d)`, and `phi` has room for `nDerived` reals, then the adapter returns
`L` (no error set, both transients released) and leaves `phi[i] == d[i]` for
every `i < nDerived`. -/
theorem loglikelihood_well_formed_return (call : Option PyObj → PyObj → Option PyObj)
    (python_loglikelihood : Option PyObj) (theta : List CDouble) (nDims : Int)
    (phi : List CDouble) (nDerived : Nat) (list_theta : PyObj) (L : CDouble) (d : List CDouble)
    (htheta : list_C2Py theta nDims = some list_theta)
    (hcall : call python_loglikelihood list_theta
      = some (PyObj.tuple [PyObj.float L, PyObj.list (d.map PyObj.float)]))
    (hd : d.length = nDerived) (hphi : nDerived ≤ phi.length) :
    ∃ phi1, loglikelihood call python_loglikelihood theta nDims phi (nDerived : Int)
        = .returned L ⟨phi1, none,
            [.decref list_theta,
             .decref (PyObj.tuple [PyObj.float L, PyObj.list (d.map PyObj.float)])]⟩ ∧
      phi1.length = phi.length ∧
      (∀ i, i < nDerived → phi1[i]? = d[i]?) ∧ (∀ i, nDerived ≤ i → phi1[i]? = phi[i]?) := by
  have hconv : list_Py2C_double (PyObj.list (d.map PyObj.float)) phi
      = .returned () (d ++ phi.drop nDerived) := by
    unfold list_Py2C_double
    rw [list_Py2C_double_loop_eq]
    have := storeLoop_all doubleOfItem (d.map PyObj.float) d phi (map_doubleOfItem_float d)
      (by simp; omega)
    simpa [listItems, hd] using this
  refine ⟨d ++ phi.drop nDerived, ?_, splice_length d phi nDerived hd hphi,
    fun i hi => splice_getElem?_lt d phi nDerived i hd hi,
    fun i hi => splice_getElem?_ge d phi nDerived i hd hi⟩
  unfold loglikelihood
  simp only [htheta, hcall]
  simp [PyTuple_Check, PyTuple_Size, PyTuple_GetItem, PyFloat_Check, PyList_Check, PyList_Size,
    PyFloat_AsDouble, hd, hconv]

/-- Claim C2 at the return `(3.14, [1.0, 2.0])` with `nDerived = 2` (doubles as
binary64 bit patterns), `theta` of one cell. -/
theorem loglikelihood_well_formed_return_witness :
    ∃ phi1,
      loglikelihood
          (fun _ _ => some (PyObj.tuple [PyObj.float ⟨0x40091EB851EB851F⟩,
            PyObj.list [PyObj.float ⟨0x3FF0000000000000⟩, PyObj.float ⟨0x4000000000000000⟩]]))
          (some (PyObj.other 0)) [⟨0⟩] 1 [⟨0⟩, ⟨0⟩] ((2 : Nat) : Int)
        = .returned ⟨0x40091EB851EB851F⟩ ⟨phi1, none,
            [.decref (PyObj.list [PyObj.float ⟨0⟩]),
             .decref (PyObj.tuple [PyObj.float ⟨0x40091EB851EB851F⟩,
               PyObj.list [PyObj.float ⟨0x3FF0000000000000⟩,
                 PyObj.float ⟨0x4000000000000000⟩]])]⟩ ∧
      phi1.length = ([⟨0⟩, ⟨0⟩] : List CDouble).length ∧
      (∀ i, i < 2 → phi1[i]?
        = ([⟨0x3FF0000000000000⟩, ⟨0x4000000000000000⟩] : List CDouble)[i]?) ∧
      (∀ i, 2 ≤ i → phi1[i]? = ([⟨0⟩, ⟨0⟩] : List CDouble)[i]?) :=
  loglikelihood_well_formed_return _ (some (PyObj.other 0)) [⟨0⟩] 1 [⟨0⟩, ⟨0⟩] 2
    (PyObj.list [PyObj.float ⟨0⟩]) ⟨0x40091EB851EB851F⟩
    [⟨0x3FF0000000000000⟩, ⟨0x4000000000000000⟩] rfl rfl rfl (by decide)

/-- Claim C3 fails as stated.  With `grade_frac` two floats,
`grade_dims = [2^64, 6]` and `nDims = 5`, the run passes argument parsing and
the grade type and length gates; `PyLong_AsLong` overflows on `2^64` and yields
`-1`, the loop adds `-1 + 6 = 5`, the sum check passes and the run goes on to
the engine and returns `None`, although the entries as host integers sum to
`2^64 + 6`, not to `nDims`.  Likewise `grade_dims = [2^32 + 5]` is narrowed to
the C `int` 5 and passes. -/
theorem run_sum_gate_passes_on_overflow :
    run_PyPolyChord true (fun _ _ => none) (fun _ _ _ => EngineExit.completed) ⟨none, none⟩
        (some ⟨PyObj.other 1, PyObj.other 2, exampleSettings 5,
          [PyObj.float ⟨0⟩, PyObj.float ⟨0⟩],
          [PyObj.long 18446744073709551616, PyObj.long 6], []⟩)
      = .returned (some PyObj.noneObj)
          ⟨⟨some (PyObj.other 1), some (PyObj.other 2)⟩, none,
            [.incref (PyObj.list [PyObj.float ⟨0⟩, PyObj.float ⟨0⟩]),
             .incref (PyObj.list [PyObj.long 18446744073709551616, PyObj.long 6]),
             .incref (PyObj.dict []),
             .incref (PyObj.other 1), .incref (PyObj.other 2), .incref PyObj.noneObj],
            true⟩ ∧
      hostSum true [PyObj.long 18446744073709551616, PyObj.long 6] = 18446744073709551622 ∧
      (exampleSettings 5).nDims = 5 ∧
      run_PyPolyChord true (fun _ _ => none) (fun _ _ _ => EngineExit.completed) ⟨none, none⟩
        (some ⟨PyObj.other 1, PyObj.other 2, exampleSettings 5,
          [PyObj.float ⟨0⟩], [PyObj.long 4294967301], []⟩)
      = .returned (some PyObj.noneObj)
          ⟨⟨some (PyObj.other 1), some (PyObj.other 2)⟩, none,
            [.incref (PyObj.list [PyObj.float ⟨0⟩]),
             .incref (PyObj.list [PyObj.long 4294967301]),
             .incref (PyObj.dict []),
             .incref (PyObj.other 1), .incref (PyObj.other 2), .incref PyObj.noneObj],
            true⟩ ∧
      hostSum true [PyObj.long 4294967301] = 4294967301 :=
  ⟨rfl, rfl, rfl, rfl, rfl⟩

/-- Claim C3, amended.  For every run invocation that passes argument parsing
and the grade type and length gates (every `grade_frac` entry a float, every
`grade_dims` entry an integer, equal lengths) and whose `grade_dims` entries and
their sum fit a C `int`: if the sum of the entries equals `nDims`, the run goes
on to the schedule conversion (line 291); and the run fails with ValueError
"grade_dims must sum to nDims" (nothing installed, engine not called) if and
only if the sum differs from `nDims`. -/
theorem run_grade_sum_gate (PYTHON3 : Bool) (call : Option PyObj → PyObj → Option PyObj)
    (run_polychord : LoglikelihoodFn → PriorFn → Settings → EngineExit)
    (reg : Registry) (a : RunArgs)
    (hfrac : ∀ o ∈ a.py_grade_frac, ∃ v, o = PyObj.float v)
    (hdims : ∀ o ∈ a.py_grade_dims,
      ∃ v, hostInteger PYTHON3 o = some v ∧ INT_MIN ≤ v ∧ v ≤ INT_MAX)
    (hlen : a.py_grade_frac.length = a.py_grade_dims.length)
    (hsum1 : INT_MIN ≤ hostSum PYTHON3 a.py_grade_dims)
    (hsum2 : hostSum PYTHON3 a.py_grade_dims ≤ INT_MAX) :
    (hostSum PYTHON3 a.py_grade_dims = a.S.nDims →
        run_PyPolyChord PYTHON3 call run_polychord reg (some a)
          = run_PyPolyChord_tail PYTHON3 call run_polychord reg a
              [.incref (PyObj.list a.py_grade_frac), .incref (PyObj.list a.py_grade_dims),
               .incref (PyObj.dict a.py_nlives)]) ∧
      (run_PyPolyChord PYTHON3 call run_polychord reg (some a)
          = .returned none
              ⟨reg, some ⟨.ValueError, "grade_dims must sum to nDims"⟩,
                [.incref (PyObj.list a.py_grade_frac), .incref (PyObj.list a.py_grade_dims),
                 .incref (PyObj.dict a.py_nlives)], false⟩
        ↔ hostSum PYTHON3 a.py_grade_dims ≠ a.S.nDims) := by
  obtain ⟨f1, hf1⟩ := grade_frac_converts a.py_grade_frac
    (List.replicate a.py_grade_frac.length ⟨0⟩) hfrac (by simp)
  have hd1 := grade_dims_converts_exact PYTHON3 a.py_grade_dims
    (List.replicate a.py_grade_frac.length 0) hdims (by simp; omega)
  have hflen : (a.py_grade_dims.filterMap (hostInteger PYTHON3)).length
      = a.py_grade_dims.length := by
    obtain ⟨vals, hvals⟩ := exists_vals (hostInteger PYTHON3) a.py_grade_dims (fun o ho => by
      obtain ⟨v, hv, _⟩ := hdims o ho
      exact ⟨v, hv⟩)
    rw [filterMap_of_map _ _ _ hvals, vals_length _ _ _ hvals]
  have htot : sumLoop ((a.py_grade_dims.filterMap (hostInteger PYTHON3)).take
      a.py_grade_frac.length) 0 = hostSum PYTHON3 a.py_grade_dims := by
    rw [List.take_of_length_le (by omega)]
    exact sumLoop_zero _ hsum1 hsum2
  have hrun : run_PyPolyChord PYTHON3 call run_polychord reg (some a)
      = if hostSum PYTHON3 a.py_grade_dims ≠ a.S.nDims then
          .returned none
            ⟨reg, some ⟨.ValueError, "grade_dims must sum to nDims"⟩,
              [.incref (PyObj.list a.py_grade_frac), .incref (PyObj.list a.py_grade_dims),
               .incref (PyObj.dict a.py_nlives)], false⟩
        else run_PyPolyChord_tail PYTHON3 call run_polychord reg a
              [.incref (PyObj.list a.py_grade_frac), .incref (PyObj.list a.py_grade_dims),
               .incref (PyObj.dict a.py_nlives)] := by
    rw [hlen] at hf1 hd1 htot
    simp [run_PyPolyChord, PyList_Size, hf1, hd1, hlen, htot]
  rw [hrun]
  constructor
  · intro h; simp [h]
  · constructor
    · intro h hEq
      simp only [hEq, ne_eq, not_true_eq_false, if_false] at h
      exact run_tail_ne_sum_failure _ _ _ _ _ _ _ _ _ h
    · intro h; simp [h]

/-- Claim C3, amended, at the inputs of the specification: `grade_dims = [2,3]`
with `nDims = 5` passes the sum check, `grade_dims = [2,2]` with `nDims = 5`
fails with ValueError "grade_dims must sum to nDims". -/
theorem run_grade_sum_gate_witness :
    run_PyPolyChord true (fun _ _ => none) (fun _ _ _ => EngineExit.completed) ⟨none, none⟩
        (some ⟨PyObj.other 1, PyObj.other 2, exampleSettings 5,
          [PyObj.float ⟨0⟩, PyObj.float ⟨0⟩], [PyObj.long 2, PyObj.long 3], []⟩)
      = run_PyPolyChord_tail true (fun _ _ => none) (fun _ _ _ => EngineExit.completed)
          ⟨none, none⟩
          ⟨PyObj.other 1, PyObj.other 2, exampleSettings 5,
            [PyObj.float ⟨0⟩, PyObj.float ⟨0⟩], [PyObj.long 2, PyObj.long 3], []⟩
          [.incref (PyObj.list [PyObj.float ⟨0⟩, PyObj.float ⟨0⟩]),
           .incref (PyObj.list [PyObj.long 2, PyObj.long 3]), .incref (PyObj.dict [])] ∧
      run_PyPolyChord true (fun _ _ => none) (fun _ _ _ => EngineExit.completed) ⟨none, none⟩
        (some ⟨PyObj.other 1, PyObj.other 2, exampleSettings 5,
          [PyObj.float ⟨0⟩, PyObj.float ⟨0⟩], [PyObj.long 2, PyObj.long 2], []⟩)
      = .returned none
          ⟨⟨none, none⟩, some ⟨.ValueError, "grade_dims must sum to nDims"⟩,
            [.incref (PyObj.list [PyObj.float ⟨0⟩, PyObj.float ⟨0⟩]),
             .incref (PyObj.list [PyObj.long 2, PyObj.long 2]), .incref (PyObj.dict [])],
            false⟩ :=
  ⟨(run_grade_sum_gate true (fun _ _ => none) (fun _ _ _ => EngineExit.completed) ⟨none, none⟩
      ⟨PyObj.other 1, PyObj.other 2, exampleSettings 5,
        [PyObj.float ⟨0⟩, PyObj.float ⟨0⟩], [PyObj.long 2, PyObj.long 3], []⟩
      (by intro o ho; simp at ho; subst ho; exact ⟨_, rfl⟩)
      (by intro o ho; simp at ho
          rcases ho with rfl | rfl <;> exact ⟨_, rfl, by decide, by decide⟩)
      rfl (by decide) (by decide)).1 rfl,
   (run_grade_sum_gate true (fun _ _ => none) (fun _ _ _ => EngineExit.completed) ⟨none, none⟩
      ⟨PyObj.other 1, PyObj.other 2, exampleSettings 5,
        [PyObj.float ⟨0⟩, PyObj.float ⟨0⟩], [PyObj.long 2, PyObj.long 2], []⟩
      (by intro o ho; simp at ho; subst ho; exact ⟨_, rfl⟩)
      (by intro o ho; simp at ho; subst ho; exact ⟨_, rfl, by decide, by decide⟩)
      rfl (by decide) (by decide)).2.2 (by decide)⟩

/-- Claim C4 fails as stated.  The two grade lists are converted before their
lengths are compared.  With `grade_frac = [1]` (a host integer) and
`grade_dims = []` the lengths differ and the run fails with TypeError
"grade_frac must be a list of doubles", not with the size error.  With
`grade_frac = [0.0]` and `grade_dims = [1, 2]` the lengths differ and the
conversion of `grade_dims` writes cell 1 of a one-cell array before the lengths
are compared. -/
theorem run_length_gate_comes_after_conversion :
    run_PyPolyChord true (fun _ _ => none) (fun _ _ _ => EngineExit.completed) ⟨none, none⟩
        (some ⟨PyObj.other 1, PyObj.other 2, exampleSettings 5, [PyObj.long 1], [], []⟩)
      = .returned none
          ⟨⟨none, none⟩, some ⟨.TypeError, "grade_frac must be a list of doubles"⟩,
            [.incref (PyObj.list [PyObj.long 1]), .incref (PyObj.list []),
             .incref (PyObj.dict []),
             .decref (PyObj.list [PyObj.long 1]), .decref (PyObj.list [])],
            false⟩ ∧
      run_PyPolyChord true (fun _ _ => none) (fun _ _ _ => EngineExit.completed) ⟨none, none⟩
        (some ⟨PyObj.other 1, PyObj.other 2, exampleSettings 5,
          [PyObj.float ⟨0⟩], [PyObj.long 1, PyObj.long 2], []⟩)
      = .undefined :=
  ⟨rfl, rfl⟩

/-- Claim C4, amended.  For every run invocation that passes argument parsing,
whose `grade_frac` entries are all floats and whose `grade_dims` entries are all
integers, and whose `grade_dims` list is shorter than its `grade_frac` list, the
run fails with ValueError "grade_dims and grade_frac must have the same size"
(the ShapeMismatch of the specification), the globals unchanged and the engine
not called. -/
theorem run_grade_length_mismatch (PYTHON3 : Bool)
    (call : Option PyObj → PyObj → Option PyObj)
    (run_polychord : LoglikelihoodFn → PriorFn → Settings → EngineExit)
    (reg : Registry) (a : RunArgs)
    (hfrac : ∀ o ∈ a.py_grade_frac, ∃ v, o = PyObj.float v)
    (hdims : ∀ o ∈ a.py_grade_dims, ∃ v, hostInteger PYTHON3 o = some v)
    (hlen : a.py_grade_dims.length < a.py_grade_frac.length) :
    run_PyPolyChord PYTHON3 call run_polychord reg (some a)
      = .returned none
          ⟨reg, some ⟨.ValueError, "grade_dims and grade_frac must have the same size"⟩,
            [.incref (PyObj.list a.py_grade_frac), .incref (PyObj.list a.py_grade_dims),
             .incref (PyObj.dict a.py_nlives),
             .decref (PyObj.list a.py_grade_frac), .decref (PyObj.list a.py_grade_dims)],
            false⟩ := by
  obtain ⟨f1, hf1⟩ := grade_frac_converts a.py_grade_frac
    (List.replicate a.py_grade_frac.length ⟨0⟩) hfrac (by simp)
  obtain ⟨d1, hd1⟩ := grade_dims_converts PYTHON3 a.py_grade_dims
    (List.replicate a.py_grade_frac.length 0) hdims (by simp; omega)
  have hne : (a.py_grade_frac.length : Int) ≠ a.py_grade_dims.length := by omega
  simp [run_PyPolyChord, PyList_Size, hf1, hd1, hne]

/-- Claim C4, amended, at `grade_frac` of two floats and `grade_dims = [5]`. -/
theorem run_grade_length_mismatch_witness :
    run_PyPolyChord true (fun _ _ => none) (fun _ _ _ => EngineExit.completed) ⟨none, none⟩
        (some ⟨PyObj.other 1, PyObj.other 2, exampleSettings 5,
          [PyObj.float ⟨0⟩, PyObj.float ⟨0⟩], [PyObj.long 5], []⟩)
      = .returned none
          ⟨⟨none, none⟩,
            some ⟨.ValueError, "grade_dims and grade_frac must have the same size"⟩,
            [.incref (PyObj.list [PyObj.float ⟨0⟩, PyObj.float ⟨0⟩]),
             .incref (PyObj.list [PyObj.long 5]), .incref (PyObj.dict []),
             .decref (PyObj.list [PyObj.float ⟨0⟩, PyObj.float ⟨0⟩]),
             .decref (PyObj.list [PyObj.long 5])],
            false⟩ :=
  run_grade_length_mismatch true (fun _ _ => none) (fun _ _ _ => EngineExit.completed)
    ⟨none, none⟩
    ⟨PyObj.other 1, PyObj.other 2, exampleSettings 5,
      [PyObj.float ⟨0⟩, PyObj.float ⟨0⟩], [PyObj.long 5], []⟩
    (by intro o ho; simp at ho; subst ho; exact ⟨_, rfl⟩)
    (by intro o ho; simp at ho; subst ho; exact ⟨_, rfl⟩)
    (by decide)

/-- Claim C5, derived-length check of the loglikelihood adapter.  For every
callable return `(L, d)` with `L` a real and `d` a list whose length differs
from `nDerived`, the adapter throws with ValueError "Derived parameters must
have length nDerived ..." set (the ShapeMismatch of the specification), and the
buffer `phi` is exactly as it was before the call. -/
theorem loglikelihood_derived_length_mismatch (call : Option PyObj → PyObj → Option PyObj)
    (python_loglikelihood : Option PyObj) (theta : List CDouble) (nDims : Int)
    (phi : List CDouble) (nDerived : Int) (list_theta : PyObj) (L : CDouble) (d : List PyObj)
    (htheta : list_C2Py theta nDims = some list_theta)
    (hcall : call python_loglikelihood list_theta
      = some (PyObj.tuple [PyObj.float L, PyObj.list d]))
    (hlen : (d.length : Int) ≠ nDerived) :
    loglikelihood call python_loglikelihood theta nDims phi nDerived
      = .threw ⟨phi,
          some ⟨.ValueError,
            "Derived parameters must have length nDerived (element 1 of loglikelihood return)"⟩,
          [.decref list_theta, .decref (PyObj.tuple [PyObj.float L, PyObj.list d])]⟩ := by
  unfold loglikelihood
  simp only [htheta, hcall]
  simp [PyTuple_Check, PyTuple_Size, PyTuple_GetItem, PyFloat_Check, PyList_Check, PyList_Size,
    hlen]

/-- Claim C5 at the return `(3.14, [1.0])` with `nDerived = 2`. -/
theorem loglikelihood_derived_length_mismatch_witness :
    loglikelihood
        (fun _ _ => some (PyObj.tuple [PyObj.float ⟨0x40091EB851EB851F⟩,
          PyObj.list [PyObj.float ⟨0x3FF0000000000000⟩]]))
        (some (PyObj.other 0)) [⟨0⟩] 1 [⟨5⟩, ⟨6⟩] 2
      = .threw ⟨[⟨5⟩, ⟨6⟩],
          some ⟨.ValueError,
            "Derived parameters must have length nDerived (element 1 of loglikelihood return)"⟩,
          [.decref (PyObj.list [PyObj.float ⟨0⟩]),
           .decref (PyObj.tuple [PyObj.float ⟨0x40091EB851EB851F⟩,
             PyObj.list [PyObj.float ⟨0x3FF0000000000000⟩]])]⟩ :=
  loglikelihood_derived_length_mismatch _ (some (PyObj.other 0)) [⟨0⟩] 1 [⟨5⟩, ⟨6⟩] 2
    (PyObj.list [PyObj.float ⟨0⟩]) ⟨0x40091EB851EB851F⟩ [PyObj.float ⟨0x3FF0000000000000⟩]
    rfl rfl (by decide)

/-- Claim C6, pair check of the loglikelihood adapter.  For every value returned
by the likelihood callable that is not a tuple of exactly two elements (a single
value, or a tuple of any other length), the adapter throws with TypeError
"Return from loglikelihood must be a tuple of ..." set (the TypeMismatch of the
specification), and `phi` is not written. -/
theorem loglikelihood_non_pair_return (call : Option PyObj → PyObj → Option PyObj)
    (python_loglikelihood : Option PyObj) (theta : List CDouble) (nDims : Int)
    (phi : List CDouble) (nDerived : Int) (list_theta answer : PyObj)
    (htheta : list_C2Py theta nDims = some list_theta)
    (hcall : call python_loglikelihood list_theta = some answer)
    (hpair : ∀ x y, answer ≠ PyObj.tuple [x, y]) :
    loglikelihood call python_loglikelihood theta nDims phi nDerived
      = .threw ⟨phi,
          some ⟨.TypeError,
            "Return from loglikelihood must be a tuple of (loglikelihood, [derived parameters])"⟩,
          [.decref list_theta, .decref answer]⟩ := by
  have hcond : (!PyTuple_Check answer || PyTuple_Size answer != 2) = true := by
    cases answer with
    | tuple items =>
      match items, hpair with
      | [], _ => simp [PyTuple_Check, PyTuple_Size]
      | [_], _ => simp [PyTuple_Check, PyTuple_Size]
      | [x, y], h => exact absurd rfl (h x y)
      | _ :: _ :: _ :: rest, _ =>
        simp [PyTuple_Check, PyTuple_Size]
        omega
    | _ => rfl
  unfold loglikelihood
  simp only [htheta, hcall, hcond, if_true]

/-- Claim C6 at a callable that returns the single float `3.14`. -/
theorem loglikelihood_non_pair_return_witness :
    loglikelihood (fun _ _ => some (PyObj.float ⟨0x40091EB851EB851F⟩))
        (some (PyObj.other 0)) [⟨0⟩] 1 [⟨5⟩, ⟨6⟩] 2
      = .threw ⟨[⟨5⟩, ⟨6⟩],
          some ⟨.TypeError,
            "Return from loglikelihood must be a tuple of (loglikelihood, [derived parameters])"⟩,
          [.decref (PyObj.list [PyObj.float ⟨0⟩]),
           .decref (PyObj.float ⟨0x40091EB851EB851F⟩)]⟩ :=
  loglikelihood_non_pair_return _ (some (PyObj.other 0)) [⟨0⟩] 1 [⟨5⟩, ⟨6⟩] 2
    (PyObj.list [PyObj.float ⟨0⟩]) (PyObj.float ⟨0x40091EB851EB851F⟩) rfl rfl
    (fun _ _ h => PyObj.noConfusion h)

/-- Claim C7, length check of the prior adapter.  For every `nDims` and every
list returned by the prior callable whose length differs from `nDims`, the
adapter throws with ValueError "Physical parameters must have length nDims ..."
set (the ShapeMismatch of the specification), and the buffer `theta` is left
unwritten. -/
theorem prior_length_mismatch (call : Option PyObj → PyObj → Option PyObj)
    (python_prior : Option PyObj) (cube theta : List CDouble) (nDims : Int)
    (list_cube : PyObj) (items : List PyObj)
    (hcube : list_C2Py cube nDims = some list_cube)
    (hcall : call python_prior list_cube = some (PyObj.list items))
    (hlen : (items.length : Int) ≠ nDims) :
    prior call python_prior cube theta nDims
      = .threw ⟨theta,
          some ⟨.ValueError, "Physical parameters must have length nDims (return from prior)"⟩,
          [.decref (PyObj.list items), .decref list_cube]⟩ := by
  unfold prior
  simp only [hcube, hcall]
  simp [PyList_Check, PyList_Size, hlen]

/-- Claim C7 at `nDims = 2` and a returned list of length `nDims - 1`. -/
theorem prior_length_mismatch_witness :
    prior (fun _ _ => some (PyObj.list [PyObj.float ⟨9⟩])) (some (PyObj.other 0))
        [⟨1⟩, ⟨2⟩] [⟨5⟩, ⟨6⟩] 2
      = .threw ⟨[⟨5⟩, ⟨6⟩],
          some ⟨.ValueError, "Physical parameters must have length nDims (return from prior)"⟩,
          [.decref (PyObj.list [PyObj.float ⟨9⟩]),
           .decref (PyObj.list [PyObj.float ⟨1⟩, PyObj.float ⟨2⟩])]⟩ :=
  prior_length_mismatch _ (some (PyObj.other 0)) [⟨1⟩, ⟨2⟩] [⟨5⟩, ⟨6⟩] 2
    (PyObj.list [PyObj.float ⟨1⟩, PyObj.float ⟨2⟩]) [PyObj.float ⟨9⟩] rfl rfl (by decide)

/-- Claim C8 fails as stated.  In the sequence `[1, "a"]` the first non-numeric
element is `"a"`, at index 1; the conversion throws at index 0 already, on the
host integer `1`, so `out[0]` does not hold the value of element 0: the buffer
is exactly as it was. -/
theorem real_buffer_stops_at_host_integer :
    list_Py2C_double (PyObj.list [PyObj.long 1, PyObj.str "a"]) [⟨7⟩, ⟨7⟩]
      = .threw [⟨7⟩, ⟨7⟩] :=
  rfl

/-- Claim C8, amended.  For every host sequence with an element that is not a
float object, with `j` the index of the first such element, and an output buffer
with room for the `j` elements before it, `list_Py2C` (double overload) throws
(the TypeMismatch of the specification), and for every `i < j` the cell `out[i]`
holds the value of element `i`; the cells from `j` on are as they were. -/
theorem real_buffer_first_failure (items : List PyObj) (out : List CDouble) (j : Nat)
    (hj : j < items.length)
    (hpre : ∀ i, i < j → ∃ v, items[i]? = some (PyObj.float v))
    (hbad : ∀ v, items[j]? ≠ some (PyObj.float v))
    (hcap : j ≤ out.length) :
    ∃ out1, list_Py2C_double (PyObj.list items) out = .threw out1 ∧
      out1.length = out.length ∧
      (∀ i v, i < j → items[i]? = some (PyObj.float v) → out1[i]? = some v) ∧
      (∀ i, j ≤ i → out1[i]? = out[i]?) := by
  have hsplit : items = items.take j ++ items[j] :: items.drop (j + 1) := by
    rw [← List.drop_eq_getElem_cons hj, List.take_append_drop]
  have hlen : (items.take j).length = j := by simp; omega
  have hpre1 : ∀ o ∈ items.take j, ∃ v, doubleOfItem o = some v := by
    intro o ho
    obtain ⟨i, hi, rfl⟩ := List.getElem_of_mem ho
    rw [hlen] at hi
    obtain ⟨v, hv⟩ := hpre i hi
    refine ⟨v, ?_⟩
    have : (items.take j)[i] = PyObj.float v := by
      have h2 : (items.take j)[i]? = some (PyObj.float v) := by
        rw [List.getElem?_take_of_lt hi]; exact hv
      rw [List.getElem?_eq_getElem (by omega)] at h2
      exact Option.some.inj h2
    rw [this]; rfl
  obtain ⟨vals, hvals⟩ := exists_vals doubleOfItem _ hpre1
  have hvlen : vals.length = j := by rw [vals_length _ _ _ hvals, hlen]
  have hbad1 : doubleOfItem items[j] = none := by
    apply doubleOfItem_eq_none
    intro v hv
    apply hbad v
    rw [List.getElem?_eq_getElem hj, hv]
  refine ⟨vals ++ out.drop j, ?_, splice_length vals out j hvlen hcap, ?_, ?_⟩
  · unfold list_Py2C_double
    rw [list_Py2C_double_loop_eq]
    have := storeLoop_fail doubleOfItem (items.take j) (items.drop (j + 1)) items[j] vals out
      hvals hbad1 (by omega)
    rw [← hsplit, hlen] at this
    exact this
  · intro i v hi hv
    rw [splice_getElem?_lt vals out j i hvlen hi]
    rw [vals_getElem? doubleOfItem _ vals hvals i (PyObj.float v)
      (by rw [List.getElem?_take_of_lt hi]; exact hv)]
    rfl
  · intro i hi; exact splice_getElem?_ge vals out j i hvlen hi

/-- Claim C8, amended, at the sequence `[1.0, "a", 3.0]` (as bit patterns),
whose first non-float element is at index 1. -/
theorem real_buffer_first_failure_witness :
    ∃ out1, list_Py2C_double (PyObj.list [PyObj.float ⟨1⟩, PyObj.str "a", PyObj.float ⟨3⟩])
        [⟨0⟩, ⟨0⟩, ⟨0⟩] = .threw out1 ∧
      out1.length = ([⟨0⟩, ⟨0⟩, ⟨0⟩] : List CDouble).length ∧
      (∀ i v, i < 1 →
        [PyObj.float ⟨1⟩, PyObj.str "a", PyObj.float ⟨3⟩][i]? = some (PyObj.float v) →
          out1[i]? = some v) ∧
      (∀ i, 1 ≤ i → out1[i]? = ([⟨0⟩, ⟨0⟩, ⟨0⟩] : List CDouble)[i]?) :=
  real_buffer_first_failure [PyObj.float ⟨1⟩, PyObj.str "a", PyObj.float ⟨3⟩]
    [⟨0⟩, ⟨0⟩, ⟨0⟩] 1 (by decide)
    (fun i hi => ⟨⟨1⟩, by obtain rfl : i = 0 := by omega
                          rfl⟩)
    (fun v h => by simp at h)
    (by decide)

/-- Claim C9 fails as stated.  The one-element sequence `[1]`, a host integer
(representable as a real), is rejected: `PyFloat_Check` fails on it and the
conversion throws with the buffer untouched. -/
theorem real_buffer_rejects_host_integer :
    list_Py2C_double (PyObj.list [PyObj.long 1]) [⟨0⟩] = .threw [⟨0⟩] ∧
      list_Py2C_double (PyObj.list [PyObj.int 1]) [⟨0⟩] = .threw [⟨0⟩] :=
  ⟨rfl, rfl⟩

/-- Claim C9, amended.  On an output buffer with room for the whole sequence,
the real-buffer conversion returns normally if and only if every element of the
host sequence is a float object (host integers are rejected); when some element
is not a float it throws; and when it returns, `out[i]` equals the value of
element `i` at every position `i`. -/
theorem real_buffer_accepts_exactly_floats (items : List PyObj) (out : List CDouble)
    (hcap : items.length ≤ out.length) :
    ((∃ out1, list_Py2C_double (PyObj.list items) out = .returned () out1) ↔
        ∀ o ∈ items, ∃ v, o = PyObj.float v) ∧
      ((∃ o ∈ items, ∀ v, o ≠ PyObj.float v) →
        ∃ out1, list_Py2C_double (PyObj.list items) out = .threw out1) ∧
      (∀ out1, list_Py2C_double (PyObj.list items) out = .returned () out1 →
        out1.length = out.length ∧
        ∀ (i : Nat) (v : CDouble), items[i]? = some (PyObj.float v) → out1[i]? = some v) := by
  have hloop : list_Py2C_double (PyObj.list items) out
      = storeLoop doubleOfItem items 0 out := by
    unfold list_Py2C_double
    rw [list_Py2C_double_loop_eq]; rfl
  have hok : (∀ o ∈ items, ∃ v, o = PyObj.float v) →
      ∃ vals : List CDouble, items.map doubleOfItem = vals.map some ∧
        list_Py2C_double (PyObj.list items) out
          = .returned () (vals ++ out.drop items.length) := by
    intro hall
    obtain ⟨vals, hvals⟩ := exists_vals doubleOfItem items (fun o ho => by
      obtain ⟨v, rfl⟩ := hall o ho
      exact ⟨v, rfl⟩)
    exact ⟨vals, hvals, by rw [hloop]; exact storeLoop_all _ _ _ _ hvals hcap⟩
  have hback : ∀ out1, list_Py2C_double (PyObj.list items) out = .returned () out1 →
      ∀ o ∈ items, ∃ v, o = PyObj.float v := by
    intro out1 h o ho
    rw [hloop] at h
    obtain ⟨v, hv⟩ := storeLoop_returned doubleOfItem items 0 out out1 h o ho
    exact ⟨v, doubleOfItem_eq_some o v hv⟩
  refine ⟨⟨fun ⟨out1, h⟩ => hback out1 h, fun hall => ?_⟩, ?_, ?_⟩
  · obtain ⟨vals, _, h⟩ := hok hall
    exact ⟨_, h⟩
  · rintro ⟨o, ho, hno⟩
    rw [hloop]
    exact storeLoop_threw doubleOfItem items 0 out ⟨o, ho, doubleOfItem_eq_none o hno⟩
      (by omega)
  · intro out1 h
    obtain ⟨vals, hvals, h2⟩ := hok (hback out1 h)
    rw [h2] at h
    injection h with _ hst
    subst hst
    have hvlen := vals_length _ _ _ hvals
    refine ⟨splice_length vals out _ hvlen hcap, ?_⟩
    intro i v hi
    have hlt : i < items.length := by
      by_contra hge
      rw [List.getElem?_eq_none (by omega)] at hi
      cases hi
    rw [splice_getElem?_lt vals out _ i hvlen hlt,
      vals_getElem? doubleOfItem _ vals hvals i _ hi]
    rfl

/-- Claim C9, amended, at the sequence `[1.0, 2.0]` (accepted) and at the
sequence `[1.0, 1]` (rejected for its host integer). -/
theorem real_buffer_accepts_exactly_floats_witness :
    (∃ out1, list_Py2C_double (PyObj.list [PyObj.float ⟨1⟩, PyObj.float ⟨2⟩]) [⟨0⟩, ⟨0⟩]
        = .returned () out1) ∧
      (∃ out1, list_Py2C_double (PyObj.list [PyObj.float ⟨1⟩, PyObj.long 1]) [⟨0⟩, ⟨0⟩]
        = .threw out1) :=
  ⟨(real_buffer_accepts_exactly_floats [PyObj.float ⟨1⟩, PyObj.float ⟨2⟩] [⟨0⟩, ⟨0⟩]
      (by decide)).1.mpr
      (by intro o ho; simp at ho; rcases ho with rfl | rfl <;> exact ⟨_, rfl⟩),
   (real_buffer_accepts_exactly_floats [PyObj.float ⟨1⟩, PyObj.long 1] [⟨0⟩, ⟨0⟩]
      (by decide)).2.1
      ⟨PyObj.long 1, by simp, fun _ h => PyObj.noConfusion h⟩⟩

/-- Claim C10 fails as stated.  The one-element sequence `[2^31]` is a sequence
of integers; the conversion returns normally, and the cell holds `-2^31`, not
the value `2^31` of the element (which no C `int` can hold), in either build. -/
theorem integer_buffer_wraps_large_value :
    list_Py2C_int true (PyObj.list [PyObj.long 2147483648]) [0]
        = .returned () [-2147483648] ∧
      list_Py2C_int false (PyObj.list [PyObj.long 2147483648]) [0]
        = .returned () [-2147483648] ∧
      hostInteger true (PyObj.long 2147483648) = some 2147483648 ∧
      hostInteger false (PyObj.long 2147483648) = some 2147483648 :=
  ⟨rfl, rfl, rfl, rfl⟩

/-- Claim C10, amended.  On an output buffer with room for the whole sequence:
for every host sequence whose elements are all integers, fixed-width or
arbitrary-precision, of any magnitude, the integer-buffer conversion returns
normally, and `out[i]` equals the exact integer value of element `i` wherever
that value fits a C `int`; for every sequence with an element that is not an
integer it throws (the TypeMismatch of the specification). -/
theorem integer_buffer_exact_in_int_range (PYTHON3 : Bool) (items : List PyObj)
    (out : List Int) (hcap : items.length ≤ out.length) :
    ((∀ o ∈ items, ∃ v, hostInteger PYTHON3 o = some v) →
        ∃ out1, list_Py2C_int PYTHON3 (PyObj.list items) out = .returned () out1 ∧
          out1.length = out.length ∧
          ∀ (i : Nat) (o : PyObj) (v : Int), items[i]? = some o →
            hostInteger PYTHON3 o = some v → INT_MIN ≤ v → v ≤ INT_MAX →
              out1[i]? = some v) ∧
      ((∃ o ∈ items, hostInteger PYTHON3 o = none) →
        ∃ out1, list_Py2C_int PYTHON3 (PyObj.list items) out = .threw out1) := by
  have hloop : list_Py2C_int PYTHON3 (PyObj.list items) out
      = storeLoop (intOfItem PYTHON3) items 0 out := by
    unfold list_Py2C_int
    rw [list_Py2C_int_loop_eq]; rfl
  refine ⟨fun hall => ?_, ?_⟩
  · obtain ⟨vals, hvals⟩ := exists_vals (intOfItem PYTHON3) items (fun o ho => by
      obtain ⟨v, hv⟩ := hall o ho
      exact intOfItem_isSome_of_hostInteger PYTHON3 o v hv)
    have hvlen := vals_length _ _ _ hvals
    refine ⟨vals ++ out.drop items.length, ?_, splice_length vals out _ hvlen hcap, ?_⟩
    · rw [hloop]; exact storeLoop_all _ _ _ _ hvals hcap
    · intro i o v hi hv h1 h2
      have hlt : i < items.length := by
        by_contra hge
        rw [List.getElem?_eq_none (by omega)] at hi
        cases hi
      rw [splice_getElem?_lt vals out _ i hvlen hlt,
        vals_getElem? (intOfItem PYTHON3) _ vals hvals i _ hi]
      exact intOfItem_of_hostInteger PYTHON3 o v hv h1 h2
  · rintro ⟨o, ho, hno⟩
    rw [hloop]
    exact storeLoop_threw _ items 0 out ⟨o, ho, intOfItem_eq_none PYTHON3 o hno⟩ (by omega)

/-- Claim C10, amended, at the sequence `[2, -3, 2^31]` (accepted, the first two
stored exactly) and at the sequence `[2, 1.0]` (rejected for its float),
Python 3 build. -/
theorem integer_buffer_exact_in_int_range_witness :
    (∃ out1, list_Py2C_int true
          (PyObj.list [PyObj.long 2, PyObj.long (-3), PyObj.long 2147483648]) [0, 0, 0]
          = .returned () out1 ∧
        out1.length = ([0, 0, 0] : List Int).length ∧
        ∀ (i : Nat) (o : PyObj) (v : Int),
          [PyObj.long 2, PyObj.long (-3), PyObj.long 2147483648][i]? = some o →
            hostInteger true o = some v → INT_MIN ≤ v → v ≤ INT_MAX →
              out1[i]? = some v) ∧
      (∃ out1, list_Py2C_int true (PyObj.list [PyObj.long 2, PyObj.float ⟨1⟩]) [0, 0]
        = .threw out1) :=
  ⟨(integer_buffer_exact_in_int_range true
      [PyObj.long 2, PyObj.long (-3), PyObj.long 2147483648] [0, 0, 0] (by decide)).1
      (by intro o ho; simp at ho
          rcases ho with rfl | rfl | rfl <;> exact ⟨_, rfl⟩),
   (integer_buffer_exact_in_int_range true [PyObj.long 2, PyObj.float ⟨1⟩] [0, 0]
      (by decide)).2
      ⟨PyObj.float ⟨1⟩, by simp, rfl⟩⟩

/-! ## The schedule conversion -/

/-- A run of well-typed entries `pre` is stored in place in both arrays, and the
`dict_Py2C` loop goes on with what follows. -/
theorem dict_Py2C_loop_append (PYTHON3 : Bool) (pre : List (PyObj × PyObj)) :
    ∀ (ks : List CDouble) (vs : List Int) (rest : List (PyObj × PyObj)) (i : Nat)
      (lk : List CDouble) (nl : List Int),
      (pre.map Prod.fst).map doubleOfItem = ks.map some →
      (pre.map Prod.snd).map (intOfItem PYTHON3) = vs.map some →
      i + pre.length ≤ lk.length → i + pre.length ≤ nl.length →
      dict_Py2C_loop PYTHON3 (pre ++ rest) i lk nl
        = dict_Py2C_loop PYTHON3 rest (i + pre.length)
            (lk.take i ++ ks ++ lk.drop (i + pre.length))
            (nl.take i ++ vs ++ nl.drop (i + pre.length)) := by
  induction pre with
  | nil =>
    intro ks vs rest i lk nl hk hv _ _
    cases ks with
    | nil =>
      cases vs with
      | nil => simp
      | cons v vs => simp at hv
    | cons k ks => simp at hk
  | cons e pre ih =>
    intro ks vs rest i lk nl hk hv hc1 hc2
    obtain ⟨key, value⟩ := e
    cases ks with
    | nil => simp at hk
    | cons t ks =>
      cases vs with
      | nil => simp at hv
      | cons c vs =>
        simp only [List.map_cons, List.cons.injEq] at hk hv
        obtain ⟨hk1, hk2⟩ := hk
        obtain ⟨hv1, hv2⟩ := hv
        have hkey : key = PyObj.float t := doubleOfItem_eq_some key t hk1
        subst hkey
        have hlk : pre.length = ks.length := by
          have := congrArg List.length hk2
          simpa using this
        have hlv : pre.length = vs.length := by
          have := congrArg List.length hv2
          simpa using this
        have hi1 : i < lk.length := by simp at hc1; omega
        have hi2 : i < nl.length := by simp at hc2; omega
        simp only [List.cons_append, dict_Py2C_loop, hv1, hi1, hi2, if_true, PyFloat_Check,
          PyFloat_AsDouble]
        show dict_Py2C_loop PYTHON3 (pre ++ rest) (i + 1) (lk.set i t) (nl.set i c) = _
        rw [ih ks vs rest (i + 1) (lk.set i t) (nl.set i c) hk2 hv2
          (by simp at hc1 ⊢; omega) (by simp at hc2 ⊢; omega)]
        have e1 := set_splice lk ks t i hi1
        have e2 := set_splice nl vs c i hi2
        rw [← hlk] at e1
        rw [← hlv] at e2
        rw [e1, e2]
        simp only [List.length_cons]
        congr 1; omega

/-- Claim C11 fails as stated.  The mapping `{1: 5}` has a real-coercible key (the
host integer 1) and an integer value, yet the conversion throws, after storing
the count and before storing any threshold.  The mapping `{1.0: 2^31}` is
converted, but the count stored at index 0 is `-2^31`, not `2^31`. -/
theorem schedule_rejects_integer_key_and_wraps_count :
    dict_Py2C true (PyObj.dict [(PyObj.long 1, PyObj.long 5)]) [⟨7⟩] [0]
        = .threw ([⟨7⟩], [5]) ∧
      dict_Py2C true (PyObj.dict [(PyObj.float ⟨0x3FF0000000000000⟩, PyObj.long 2147483648)])
          [⟨7⟩] [0]
        = .returned () ([⟨0x3FF0000000000000⟩], [-2147483648]) :=
  ⟨rfl, rfl⟩

/-- Claim C11, amended.  For every host mapping with `k` entries whose keys are
float objects and whose values are integers, and output buffers with room for
`k` entries, `dict_Py2C` returns normally, writes exactly the indices `0..k-1`
of both buffers (their sizes and the cells from `k` on are unchanged), and every
original (threshold, count) entry whose count fits a C `int` is found at an
index `i < k` (its position in iteration order) with `out_keys[i] == threshold`
and `out_values[i] == count`. -/
theorem schedule_conversion_well_typed (PYTHON3 : Bool) (entries : List (PyObj × PyObj))
    (loglikes : List CDouble) (nlives : List Int)
    (hkeys : ∀ e ∈ entries, ∃ t, e.1 = PyObj.float t)
    (hvals : ∀ e ∈ entries, ∃ c, hostInteger PYTHON3 e.2 = some c)
    (hcap1 : entries.length ≤ loglikes.length) (hcap2 : entries.length ≤ nlives.length) :
    ∃ lk1 nl1, dict_Py2C PYTHON3 (PyObj.dict entries) loglikes nlives = .returned () (lk1, nl1) ∧
      lk1.length = loglikes.length ∧ nl1.length = nlives.length ∧
      (∀ i, entries.length ≤ i → lk1[i]? = loglikes[i]? ∧ nl1[i]? = nlives[i]?) ∧
      (∀ (i : Nat) (t : CDouble) (value : PyObj) (c : Int),
        entries[i]? = some (PyObj.float t, value) → hostInteger PYTHON3 value = some c →
          INT_MIN ≤ c → c ≤ INT_MAX → lk1[i]? = some t ∧ nl1[i]? = some c) ∧
      (∀ (t : CDouble) (value : PyObj) (c : Int),
        (PyObj.float t, value) ∈ entries → hostInteger PYTHON3 value = some c →
          INT_MIN ≤ c → c ≤ INT_MAX →
            ∃ i, i < entries.length ∧ lk1[i]? = some t ∧ nl1[i]? = some c) := by
  obtain ⟨ks, hks⟩ := exists_vals doubleOfItem (entries.map Prod.fst) (fun o ho => by
    obtain ⟨e, he, rfl⟩ := List.mem_map.mp ho
    obtain ⟨t, ht⟩ := hkeys e he
    exact ⟨t, by rw [ht]; rfl⟩)
  obtain ⟨vs, hvs⟩ := exists_vals (intOfItem PYTHON3) (entries.map Prod.snd) (fun o ho => by
    obtain ⟨e, he, rfl⟩ := List.mem_map.mp ho
    obtain ⟨c, hc⟩ := hvals e he
    exact intOfItem_isSome_of_hostInteger PYTHON3 e.2 c hc)
  have hkl : ks.length = entries.length := by
    rw [vals_length _ _ _ hks, List.length_map]
  have hvl : vs.length = entries.length := by
    rw [vals_length _ _ _ hvs, List.length_map]
  have hpos : ∀ (i : Nat) (t : CDouble) (value : PyObj) (c : Int),
      entries[i]? = some (PyObj.float t, value) → hostInteger PYTHON3 value = some c →
        INT_MIN ≤ c → c ≤ INT_MAX →
          i < entries.length ∧ (ks ++ loglikes.drop entries.length)[i]? = some t ∧
            (vs ++ nlives.drop entries.length)[i]? = some c := by
    intro i t value c hi hc h1 h2
    have hlt : i < entries.length := by
      by_contra hge
      rw [List.getElem?_eq_none (by omega)] at hi
      cases hi
    refine ⟨hlt, ?_, ?_⟩
    · rw [splice_getElem?_lt ks loglikes _ i hkl hlt,
        vals_getElem? doubleOfItem _ ks hks i (PyObj.float t) (by simp [hi])]
      rfl
    · rw [splice_getElem?_lt vs nlives _ i hvl hlt,
        vals_getElem? (intOfItem PYTHON3) _ vs hvs i value (by simp [hi])]
      exact intOfItem_of_hostInteger PYTHON3 value c hc h1 h2
  refine ⟨ks ++ loglikes.drop entries.length, vs ++ nlives.drop entries.length, ?_,
    splice_length ks loglikes _ hkl hcap1, splice_length vs nlives _ hvl hcap2, ?_, ?_, ?_⟩
  · unfold dict_Py2C
    have := dict_Py2C_loop_append PYTHON3 entries ks vs [] 0 loglikes nlives hks hvs
      (by omega) (by omega)
    simpa [dictEntries, dict_Py2C_loop] using this
  · intro i hi
    exact ⟨splice_getElem?_ge ks loglikes _ i hkl hi, splice_getElem?_ge vs nlives _ i hvl hi⟩
  · intro i t value c hi hc h1 h2
    exact (hpos i t value c hi hc h1 h2).2
  · intro t value c hmem hc h1 h2
    obtain ⟨i, hi, hget⟩ := List.getElem_of_mem hmem
    have hi2 : entries[i]? = some (PyObj.float t, value) := by
      rw [List.getElem?_eq_getElem hi, hget]
    exact ⟨i, hpos i t value c hi2 hc h1 h2⟩

/-- Claim C11, amended, at the schedule `{1: 50, 2: 25}` (thresholds as bit
patterns). -/
theorem schedule_conversion_well_typed_witness :
    ∃ lk1 nl1, dict_Py2C true
        (PyObj.dict [(PyObj.float ⟨1⟩, PyObj.long 50), (PyObj.float ⟨2⟩, PyObj.long 25)])
        [⟨0⟩, ⟨0⟩] [0, 0] = .returned () (lk1, nl1) ∧
      lk1.length = ([⟨0⟩, ⟨0⟩] : List CDouble).length ∧
      nl1.length = ([0, 0] : List Int).length ∧
      (∀ i, [(PyObj.float ⟨1⟩, PyObj.long 50), (PyObj.float ⟨2⟩, PyObj.long 25)].length ≤ i →
        lk1[i]? = ([⟨0⟩, ⟨0⟩] : List CDouble)[i]? ∧ nl1[i]? = ([0, 0] : List Int)[i]?) ∧
      (∀ (i : Nat) (t : CDouble) (value : PyObj) (c : Int),
        [(PyObj.float ⟨1⟩, PyObj.long 50), (PyObj.float ⟨2⟩, PyObj.long 25)][i]?
            = some (PyObj.float t, value) →
          hostInteger true value = some c →
            INT_MIN ≤ c → c ≤ INT_MAX → lk1[i]? = some t ∧ nl1[i]? = some c) ∧
      (∀ (t : CDouble) (value : PyObj) (c : Int),
        (PyObj.float t, value)
            ∈ [(PyObj.float ⟨1⟩, PyObj.long 50), (PyObj.float ⟨2⟩, PyObj.long 25)] →
          hostInteger true value = some c → INT_MIN ≤ c → c ≤ INT_MAX →
            ∃ i, i < [(PyObj.float ⟨1⟩, PyObj.long 50),
                (PyObj.float ⟨2⟩, PyObj.long 25)].length ∧
              lk1[i]? = some t ∧ nl1[i]? = some c) :=
  schedule_conversion_well_typed true
    [(PyObj.float ⟨1⟩, PyObj.long 50), (PyObj.float ⟨2⟩, PyObj.long 25)] [⟨0⟩, ⟨0⟩] [0, 0]
    (by intro e he; simp at he; rcases he with rfl | rfl <;> exact ⟨_, rfl⟩)
    (by intro e he; simp at he; rcases he with rfl | rfl <;> exact ⟨_, rfl⟩)
    (by decide) (by decide)

/-! ## Reference counts -/

/-- Claim C12 does not hold of the code.  When the callable returns
`(1.0, ["x"])` with `nDerived = 1`, a derived list of the right length with an
element that is not a float, `loglikelihood` throws with TypeError "Derived
parameters must be a list of floats ..." set and has released neither the theta
list nor the callable's return value (lines 159–162).  On the same kind of
return `prior` releases both of its transients (lines 196–201). -/
theorem loglikelihood_keeps_transients_on_bad_derived_element :
    loglikelihood
        (fun _ _ => some (PyObj.tuple [PyObj.float ⟨0x3FF0000000000000⟩,
          PyObj.list [PyObj.str "x"]]))
        (some (PyObj.other 0)) [⟨0⟩] 1 [⟨5⟩] 1
      = .threw ⟨[⟨5⟩],
          some ⟨.TypeError,
            "Derived parameters must be a list of floats (element 1 of loglikelihood return)"⟩,
          []⟩ ∧
      prior (fun _ _ => some (PyObj.list [PyObj.str "x"])) (some (PyObj.other 0))
        [⟨0⟩] [⟨5⟩] 1
      = .threw ⟨[⟨5⟩],
          some ⟨.TypeError, "Physical parameters must be a list of floats (return from prior)"⟩,
          [.decref (PyObj.list [PyObj.str "x"]), .decref (PyObj.list [PyObj.float ⟨0⟩])]⟩ :=
  ⟨rfl, rfl⟩

/-- Claim C13 does not hold of the code.  With `grade_frac = [0.0]`:
a run with `grade_dims = [9]`, `nDims = 3` fails the sum check and releases none
of the three references it acquired; a run with `grade_dims = [3]` that succeeds
releases none either; the same run with a failing engine releases `grade_frac`
and `grade_dims` but not `nlives`; a run whose schedule has a string key
releases `nlives` but neither `grade_frac` nor `grade_dims`. -/
theorem run_leaves_argument_references_unreleased :
    run_PyPolyChord true (fun _ _ => none) (fun _ _ _ => EngineExit.completed) ⟨none, none⟩
        (some ⟨PyObj.other 1, PyObj.other 2, exampleSettings 3,
          [PyObj.float ⟨0⟩], [PyObj.long 9], []⟩)
      = .returned none
          ⟨⟨none, none⟩, some ⟨.ValueError, "grade_dims must sum to nDims"⟩,
            [.incref (PyObj.list [PyObj.float ⟨0⟩]), .incref (PyObj.list [PyObj.long 9]),
             .incref (PyObj.dict [])],
            false⟩ ∧
      run_PyPolyChord true (fun _ _ => none) (fun _ _ _ => EngineExit.completed) ⟨none, none⟩
        (some ⟨PyObj.other 1, PyObj.other 2, exampleSettings 3,
          [PyObj.float ⟨0⟩], [PyObj.long 3], []⟩)
      = .returned (some PyObj.noneObj)
          ⟨⟨some (PyObj.other 1), some (PyObj.other 2)⟩, none,
            [.incref (PyObj.list [PyObj.float ⟨0⟩]), .incref (PyObj.list [PyObj.long 3]),
             .incref (PyObj.dict []),
             .incref (PyObj.other 1), .incref (PyObj.other 2), .incref PyObj.noneObj],
            true⟩ ∧
      run_PyPolyChord true (fun _ _ => none) (fun _ _ _ => EngineExit.threw) ⟨none, none⟩
        (some ⟨PyObj.other 1, PyObj.other 2, exampleSettings 3,
          [PyObj.float ⟨0⟩], [PyObj.long 3], []⟩)
      = .returned none
          ⟨⟨some (PyObj.other 1), some (PyObj.other 2)⟩, none,
            [.incref (PyObj.list [PyObj.float ⟨0⟩]), .incref (PyObj.list [PyObj.long 3]),
             .incref (PyObj.dict []),
             .incref (PyObj.other 1), .incref (PyObj.other 2),
             .decref (PyObj.list [PyObj.float ⟨0⟩]), .decref (PyObj.list [PyObj.long 3]),
             .decref (PyObj.other 1), .decref (PyObj.other 2)],
            true⟩ ∧
      run_PyPolyChord true (fun _ _ => none) (fun _ _ _ => EngineExit.completed) ⟨none, none⟩
        (some ⟨PyObj.other 1, PyObj.other 2, exampleSettings 3,
          [PyObj.float ⟨0⟩], [PyObj.long 3], [(PyObj.str "k", PyObj.long 1)]⟩)
      = .returned none
          ⟨⟨none, none⟩,
            some ⟨.TypeError, "nlives must be a dict mapping floats to integers"⟩,
            [.incref (PyObj.list [PyObj.float ⟨0⟩]), .incref (PyObj.list [PyObj.long 3]),
             .incref (PyObj.dict [(PyObj.str "k", PyObj.long 1)]),
             .decref (PyObj.dict [(PyObj.str "k", PyObj.long 1)])],
            false⟩ :=
  ⟨rfl, rfl, rfl, rfl⟩

/-- Claim C14 does not hold of the code.  Two runs in a row from empty globals:
the first installs the callables of identities 1 and 2 and its engine fails,
the second installs the callables 3 and 4 and succeeds.  The first run acquires
one reference to callable 1 and releases it on the engine failure, leaving the
global pointing at it; the install of the second run releases callable 1 again
(`Py_XDECREF(python_loglikelihood)`): one acquisition, two releases. -/
theorem callable_released_twice_after_engine_failure :
    ∃ refs, runSequence true (fun _ _ => none) ⟨none, none⟩
        [(fun _ _ _ => EngineExit.threw,
          some ⟨PyObj.other 1, PyObj.other 2, exampleSettings 3,
            [PyObj.float ⟨0⟩], [PyObj.long 3], []⟩),
         (fun _ _ _ => EngineExit.completed,
          some ⟨PyObj.other 3, PyObj.other 4, exampleSettings 3,
            [PyObj.float ⟨0⟩], [PyObj.long 3], []⟩)]
        = some (⟨some (PyObj.other 3), some (PyObj.other 4)⟩, refs) ∧
      refs =
        [.incref (PyObj.list [PyObj.float ⟨0⟩]), .incref (PyObj.list [PyObj.long 3]),
         .incref (PyObj.dict []),
         .incref (PyObj.other 1), .incref (PyObj.other 2),
         .decref (PyObj.list [PyObj.float ⟨0⟩]), .decref (PyObj.list [PyObj.long 3]),
         .decref (PyObj.other 1), .decref (PyObj.other 2),
         .incref (PyObj.list [PyObj.float ⟨0⟩]), .incref (PyObj.list [PyObj.long 3]),
         .incref (PyObj.dict []),
         .incref (PyObj.other 3), .decref (PyObj.other 1),
         .incref (PyObj.other 4), .decref (PyObj.other 2),
         .incref PyObj.noneObj] ∧
      acquisitions 1 refs = 1 ∧ releases 1 refs = 2 ∧
      acquisitions 2 refs = 1 ∧ releases 2 refs = 2 :=
  ⟨_, rfl, rfl, rfl, rfl, rfl, rfl⟩

/-! ## The validation steps of a run -/

/-- The run on parsed arguments, step by step, over the three conversions as the
run performs them. -/
theorem run_PyPolyChord_some (PYTHON3 : Bool) (call : Option PyObj → PyObj → Option PyObj)
    (run_polychord : Engine) (reg : Registry) (a : RunArgs) :
    run_PyPolyChord PYTHON3 call run_polychord reg (some a)
      = match gradeFracConversion a with
        | .undefined => .undefined
        | .threw _ =>
          .returned none ⟨reg, some ⟨.TypeError, "grade_frac must be a list of doubles"⟩,
            entryRefs a ++ [.decref (PyObj.list a.py_grade_frac),
              .decref (PyObj.list a.py_grade_dims)], false⟩
        | .returned _ _ =>
          match gradeDimsConversion PYTHON3 a with
          | .undefined => .undefined
          | .threw _ =>
            .returned none ⟨reg, some ⟨.TypeError, "grade_dims must be a list of integers"⟩,
              entryRefs a ++ [.decref (PyObj.list a.py_grade_frac),
                .decref (PyObj.list a.py_grade_dims)], false⟩
          | .returned _ d1 =>
            if a.py_grade_frac.length ≠ a.py_grade_dims.length then
              .returned none
                ⟨reg, some ⟨.ValueError, "grade_dims and grade_frac must have the same size"⟩,
                  entryRefs a ++ [.decref (PyObj.list a.py_grade_frac),
                    .decref (PyObj.list a.py_grade_dims)], false⟩
            else if sumLoop (d1.take a.py_grade_frac.length) 0 ≠ a.S.nDims then
              .returned none
                ⟨reg, some ⟨.ValueError, "grade_dims must sum to nDims"⟩, entryRefs a, false⟩
            else
              match scheduleConversion PYTHON3 a with
              | .undefined => .undefined
              | .threw _ =>
                .returned none
                  ⟨reg, some ⟨.TypeError, "nlives must be a dict mapping floats to integers"⟩,
                    entryRefs a ++ [.decref (PyObj.dict a.py_nlives)], false⟩
              | .returned _ _ =>
                match run_polychord (loglikelihood call (some a.temp_logl))
                    (prior call (some a.temp_prior)) a.S with
                | .threw =>
                  .returned none ⟨⟨some a.temp_logl, some a.temp_prior⟩, none,
                    entryRefs a ++ [.incref a.temp_logl] ++ Py_XDECREF reg.python_loglikelihood
                      ++ [.incref a.temp_prior] ++ Py_XDECREF reg.python_prior
                      ++ [.decref (PyObj.list a.py_grade_frac),
                        .decref (PyObj.list a.py_grade_dims),
                        .decref a.temp_logl, .decref a.temp_prior], true⟩
                | .completed =>
                  .returned (some .noneObj) ⟨⟨some a.temp_logl, some a.temp_prior⟩, none,
                    entryRefs a ++ [.incref a.temp_logl] ++ Py_XDECREF reg.python_loglikelihood
                      ++ [.incref a.temp_prior] ++ Py_XDECREF reg.python_prior
                      ++ [.incref .noneObj], true⟩ := by
  unfold run_PyPolyChord run_PyPolyChord_tail gradeFracConversion gradeDimsConversion
    scheduleConversion entryRefs
  simp only [PyList_Size, Int.toNat_ofNat]
  cases list_Py2C_double (PyObj.list a.py_grade_frac)
      (List.replicate a.py_grade_frac.length ⟨0⟩) with
  | undefined => rfl
  | threw _ => rfl
  | returned _ _ =>
    simp only
    cases list_Py2C_int PYTHON3 (PyObj.list a.py_grade_dims)
        (List.replicate a.py_grade_frac.length 0) with
    | undefined => rfl
    | threw _ => rfl
    | returned _ d1 =>
      simp only
      by_cases h1 : a.py_grade_frac.length = a.py_grade_dims.length
      · by_cases h2 : sumLoop (d1.take a.py_grade_frac.length) 0 = a.S.nDims
        · simp [h1, h2]
        · simp [h1, h2]
      · simp [h1]

/-- A failing validation step ends the run before anything is installed. -/
theorem run_validation_failure (PYTHON3 : Bool) (call : Option PyObj → PyObj → Option PyObj)
    (run_polychord : Engine) (reg : Registry) (a : RunArgs)
    (hfail : (∃ x, gradeFracConversion a = .threw x) ∨
      (∃ f1 x, gradeFracConversion a = .returned () f1 ∧
        gradeDimsConversion PYTHON3 a = .threw x) ∨
      (∃ f1 d1, gradeFracConversion a = .returned () f1 ∧
        gradeDimsConversion PYTHON3 a = .returned () d1 ∧
        (a.py_grade_frac.length ≠ a.py_grade_dims.length ∨
          sumLoop (d1.take a.py_grade_frac.length) 0 ≠ a.S.nDims ∨
          ∃ x, scheduleConversion PYTHON3 a = .threw x))) :
    ∃ st, run_PyPolyChord PYTHON3 call run_polychord reg (some a) = .returned none st ∧
      st.registry = reg ∧ st.engine_called = false ∧
      (st.refs = entryRefs a ++ [.decref (PyObj.list a.py_grade_frac),
          .decref (PyObj.list a.py_grade_dims)] ∨
        st.refs = entryRefs a ∨
        st.refs = entryRefs a ++ [.decref (PyObj.dict a.py_nlives)]) := by
  rw [run_PyPolyChord_some]
  rcases hfail with ⟨x, hf⟩ | ⟨f1, x, hf, hd⟩ | ⟨f1, d1, hf, hd, hrest⟩
  · rw [hf]; exact ⟨_, rfl, rfl, rfl, Or.inl rfl⟩
  · rw [hf]; simp only [hd]; exact ⟨_, rfl, rfl, rfl, Or.inl rfl⟩
  · rw [hf]; simp only [hd]
    by_cases h1 : a.py_grade_frac.length = a.py_grade_dims.length
    · by_cases h2 : sumLoop (d1.take a.py_grade_frac.length) 0 = a.S.nDims
      · rcases hrest with h | h | ⟨x, hs⟩
        · exact absurd h1 h
        · exact absurd h2 h
        · rw [if_neg (not_not_intro h1), if_neg (not_not_intro h2), hs]
          exact ⟨_, rfl, rfl, rfl, Or.inr (Or.inr rfl)⟩
      · rw [if_neg (not_not_intro h1), if_pos h2]
        exact ⟨_, rfl, rfl, rfl, Or.inr (Or.inl rfl)⟩
    · rw [if_pos h1]
      exact ⟨_, rfl, rfl, rfl, Or.inl rfl⟩

/-- A run that calls the engine has passed every validation step. -/
theorem run_engine_called (PYTHON3 : Bool) (call : Option PyObj → PyObj → Option PyObj)
    (run_polychord : Engine) (reg : Registry) (a : RunArgs) (v : Option PyObj) (st : RunState)
    (hrun : run_PyPolyChord PYTHON3 call run_polychord reg (some a) = .returned v st)
    (hcalled : st.engine_called = true) :
    ∃ f1 d1 s, gradeFracConversion a = .returned () f1 ∧
      gradeDimsConversion PYTHON3 a = .returned () d1 ∧
      a.py_grade_frac.length = a.py_grade_dims.length ∧
      sumLoop (d1.take a.py_grade_frac.length) 0 = a.S.nDims ∧
      scheduleConversion PYTHON3 a = .returned () s := by
  rw [run_PyPolyChord_some] at hrun
  cases hf : gradeFracConversion a with
  | undefined => simp [hf] at hrun
  | threw x =>
    simp only [hf, Completion.returned.injEq] at hrun
    obtain ⟨_, rfl⟩ := hrun
    cases hcalled
  | returned u f1 =>
    simp only [hf] at hrun
    cases hd : gradeDimsConversion PYTHON3 a with
    | undefined => simp [hd] at hrun
    | threw x =>
      simp only [hd, Completion.returned.injEq] at hrun
      obtain ⟨_, rfl⟩ := hrun
      cases hcalled
    | returned u2 d1 =>
      simp only [hd] at hrun
      by_cases h1 : a.py_grade_frac.length = a.py_grade_dims.length
      · by_cases h2 : sumLoop (d1.take a.py_grade_frac.length) 0 = a.S.nDims
        · rw [if_neg (not_not_intro h1), if_neg (not_not_intro h2)] at hrun
          cases hs : scheduleConversion PYTHON3 a with
          | undefined => simp [hs] at hrun
          | threw x =>
            simp only [hs, Completion.returned.injEq] at hrun
            obtain ⟨_, rfl⟩ := hrun
            cases hcalled
          | returned u3 s =>
            exact ⟨f1, d1, s, rfl, rfl, h1, h2, rfl⟩
        · rw [if_neg (not_not_intro h1), if_pos h2] at hrun
          simp only [Completion.returned.injEq] at hrun
          obtain ⟨_, rfl⟩ := hrun
          cases hcalled
      · rw [if_pos h1] at hrun
        simp only [Completion.returned.injEq] at hrun
        obtain ⟨_, rfl⟩ := hrun
        cases hcalled

/-- A run that returns without calling the engine returns `NULL` and leaves the
globals as they were. -/
theorem run_engine_not_called (PYTHON3 : Bool) (call : Option PyObj → PyObj → Option PyObj)
    (run_polychord : Engine) (reg : Registry) (parsed : Option RunArgs) (v : Option PyObj)
    (st : RunState)
    (hrun : run_PyPolyChord PYTHON3 call run_polychord reg parsed = .returned v st)
    (hnot : st.engine_called = false) :
    v = none ∧ st.registry = reg := by
  cases parsed with
  | none =>
    simp only [run_PyPolyChord, Completion.returned.injEq] at hrun
    obtain ⟨rfl, rfl⟩ := hrun
    exact ⟨rfl, rfl⟩
  | some a =>
    rw [run_PyPolyChord_some] at hrun
    cases hf : gradeFracConversion a with
    | undefined => simp [hf] at hrun
    | threw x =>
      simp only [hf, Completion.returned.injEq] at hrun
      obtain ⟨rfl, rfl⟩ := hrun
      exact ⟨rfl, rfl⟩
    | returned u f1 =>
      simp only [hf] at hrun
      cases hd : gradeDimsConversion PYTHON3 a with
      | undefined => simp [hd] at hrun
      | threw x =>
        simp only [hd, Completion.returned.injEq] at hrun
        obtain ⟨rfl, rfl⟩ := hrun
        exact ⟨rfl, rfl⟩
      | returned u2 d1 =>
        simp only [hd] at hrun
        by_cases h1 : a.py_grade_frac.length = a.py_grade_dims.length
        · by_cases h2 : sumLoop (d1.take a.py_grade_frac.length) 0 = a.S.nDims
          · rw [if_neg (not_not_intro h1), if_neg (not_not_intro h2)] at hrun
            cases hs : scheduleConversion PYTHON3 a with
            | undefined => simp [hs] at hrun
            | threw x =>
              simp only [hs, Completion.returned.injEq] at hrun
              obtain ⟨rfl, rfl⟩ := hrun
              exact ⟨rfl, rfl⟩
            | returned u3 s =>
              simp only [hs] at hrun
              cases he : run_polychord (loglikelihood call (some a.temp_logl))
                  (prior call (some a.temp_prior)) a.S with
              | threw =>
                simp only [he, Completion.returned.injEq] at hrun
                obtain ⟨_, rfl⟩ := hrun
                cases hnot
              | completed =>
                simp only [he, Completion.returned.injEq] at hrun
                obtain ⟨_, rfl⟩ := hrun
                cases hnot
          · rw [if_neg (not_not_intro h1), if_pos h2] at hrun
            simp only [Completion.returned.injEq] at hrun
            obtain ⟨rfl, rfl⟩ := hrun
            exact ⟨rfl, rfl⟩
        · rw [if_pos h1] at hrun
          simp only [Completion.returned.injEq] at hrun
          obtain ⟨rfl, rfl⟩ := hrun
          exact ⟨rfl, rfl⟩

/-- Claim C15, the validation gates precede the engine.  For every run
invocation: if the run returns having called `run_polychord`, then argument
parsing, the `grade_frac` conversion, the `grade_dims` conversion, the
equal-length check, the sum check and the schedule conversion have all
succeeded; and whenever argument parsing fails, or the `grade_frac` conversion
throws, or the `grade_dims` conversion throws, or the lengths differ, or the sum
differs from `nDims`, or the schedule conversion throws (each step being reached
in the order of the source), the run returns `NULL` without calling the
engine. -/
theorem run_engine_only_after_gates (PYTHON3 : Bool)
    (call : Option PyObj → PyObj → Option PyObj)
    (run_polychord : Engine) (reg : Registry) (parsed : Option RunArgs) :
    (∀ v st, run_PyPolyChord PYTHON3 call run_polychord reg parsed = .returned v st →
        st.engine_called = true →
        ∃ a f1 d1 s, parsed = some a ∧
          gradeFracConversion a = .returned () f1 ∧
          gradeDimsConversion PYTHON3 a = .returned () d1 ∧
          a.py_grade_frac.length = a.py_grade_dims.length ∧
          sumLoop (d1.take a.py_grade_frac.length) 0 = a.S.nDims ∧
          scheduleConversion PYTHON3 a = .returned () s) ∧
      (parsed = none →
        ∃ st, run_PyPolyChord PYTHON3 call run_polychord reg parsed = .returned none st ∧
          st.engine_called = false) ∧
      (∀ a, parsed = some a →
        ((∃ x, gradeFracConversion a = .threw x) ∨
          (∃ f1 x, gradeFracConversion a = .returned () f1 ∧
            gradeDimsConversion PYTHON3 a = .threw x) ∨
          (∃ f1 d1, gradeFracConversion a = .returned () f1 ∧
            gradeDimsConversion PYTHON3 a = .returned () d1 ∧
            (a.py_grade_frac.length ≠ a.py_grade_dims.length ∨
              sumLoop (d1.take a.py_grade_frac.length) 0 ≠ a.S.nDims ∨
              ∃ x, scheduleConversion PYTHON3 a = .threw x))) →
        ∃ st, run_PyPolyChord PYTHON3 call run_polychord reg parsed = .returned none st ∧
          st.engine_called = false) := by
  refine ⟨?_, ?_, ?_⟩
  · intro v st hrun hcalled
    cases parsed with
    | none =>
      simp only [run_PyPolyChord, Completion.returned.injEq] at hrun
      obtain ⟨_, rfl⟩ := hrun
      cases hcalled
    | some a =>
      obtain ⟨f1, d1, s, h⟩ := run_engine_called PYTHON3 call run_polychord reg a v st hrun hcalled
      exact ⟨a, f1, d1, s, rfl, h⟩
  · rintro rfl
    exact ⟨_, rfl, rfl⟩
  · rintro a rfl hfail
    obtain ⟨st, h1, _, h3, _⟩ := run_validation_failure PYTHON3 call run_polychord reg a hfail
    exact ⟨st, h1, h3⟩

/-- Claim C15 at a run that reaches the engine (`grade_dims = [2, 3]`,
`nDims = 5`) and at a run whose schedule has a string key. -/
theorem run_engine_only_after_gates_witness :
    (∃ a f1 d1 s,
        some (RunArgs.mk (PyObj.other 1) (PyObj.other 2) (exampleSettings 5)
          [PyObj.float ⟨0⟩, PyObj.float ⟨0⟩] [PyObj.long 2, PyObj.long 3] []) = some a ∧
        gradeFracConversion a = .returned () f1 ∧
        gradeDimsConversion true a = .returned () d1 ∧
        a.py_grade_frac.length = a.py_grade_dims.length ∧
        sumLoop (d1.take a.py_grade_frac.length) 0 = a.S.nDims ∧
        scheduleConversion true a = .returned () s) ∧
      (∃ st, run_PyPolyChord true (fun _ _ => none) (fun _ _ _ => EngineExit.completed)
          ⟨none, none⟩
          (some ⟨PyObj.other 1, PyObj.other 2, exampleSettings 5,
            [PyObj.float ⟨0⟩, PyObj.float ⟨0⟩], [PyObj.long 2, PyObj.long 3],
            [(PyObj.str "k", PyObj.long 1)]⟩) = .returned none st ∧
        st.engine_called = false) :=
  ⟨(run_engine_only_after_gates true (fun _ _ => none) (fun _ _ _ => EngineExit.completed)
      ⟨none, none⟩
      (some ⟨PyObj.other 1, PyObj.other 2, exampleSettings 5,
        [PyObj.float ⟨0⟩, PyObj.float ⟨0⟩], [PyObj.long 2, PyObj.long 3], []⟩)).1
      _ _ rfl rfl,
   (run_engine_only_after_gates true (fun _ _ => none) (fun _ _ _ => EngineExit.completed)
      ⟨none, none⟩
      (some ⟨PyObj.other 1, PyObj.other 2, exampleSettings 5,
        [PyObj.float ⟨0⟩, PyObj.float ⟨0⟩], [PyObj.long 2, PyObj.long 3],
        [(PyObj.str "k", PyObj.long 1)]⟩)).2.2
      _ rfl (Or.inr (Or.inr ⟨_, _, rfl, rfl, Or.inr (Or.inr ⟨_, rfl⟩)⟩))⟩

/-- Claim C16 fails as stated.  The pair `(0, [1.0])`, whose first element is a
host integer, is not accepted: with `nDerived = 1` the adapter throws with
TypeError "loglikelihood must be a float ..." set. -/
theorem loglikelihood_rejects_integer_logL :
    loglikelihood
        (fun _ _ => some (PyObj.tuple [PyObj.long 0,
          PyObj.list [PyObj.float ⟨0x3FF0000000000000⟩]]))
        (some (PyObj.other 0)) [⟨0⟩] 1 [⟨5⟩] 1
      = .threw ⟨[⟨5⟩],
          some ⟨.TypeError, "loglikelihood must be a float (element 0 of loglikelihood return)"⟩,
          [.decref (PyObj.list [PyObj.float ⟨0⟩]),
           .decref (PyObj.tuple [PyObj.long 0,
             PyObj.list [PyObj.float ⟨0x3FF0000000000000⟩]])]⟩ :=
  rfl

/-- Claim C16, amended.  For every 2-element pair `(v, d)` returned by the
likelihood callable, the adapter fails with TypeError "loglikelihood must be a
float (element 0 of loglikelihood return)" (the TypeMismatch of the
specification) if and only if `v` is not a float object; in particular a pair
whose first element is a host integer is rejected.  Whenever the adapter
returns, `v` is a float and its value is the `logL` returned. -/
theorem loglikelihood_logL_must_be_float (call : Option PyObj → PyObj → Option PyObj)
    (python_loglikelihood : Option PyObj) (theta : List CDouble) (nDims : Int)
    (phi : List CDouble) (nDerived : Int) (list_theta v d : PyObj)
    (htheta : list_C2Py theta nDims = some list_theta)
    (hcall : call python_loglikelihood list_theta = some (PyObj.tuple [v, d])) :
    (loglikelihood call python_loglikelihood theta nDims phi nDerived
        = .threw ⟨phi,
            some ⟨.TypeError,
              "loglikelihood must be a float (element 0 of loglikelihood return)"⟩,
            [.decref list_theta, .decref (PyObj.tuple [v, d])]⟩
        ↔ ∀ x, v ≠ PyObj.float x) ∧
      (∀ r st, loglikelihood call python_loglikelihood theta nDims phi nDerived
          = .returned r st → v = PyObj.float r) := by
  have hunf : loglikelihood call python_loglikelihood theta nDims phi nDerived
      = if !PyFloat_Check v then
          .threw ⟨phi,
            some ⟨.TypeError,
              "loglikelihood must be a float (element 0 of loglikelihood return)"⟩,
            [.decref list_theta, .decref (PyObj.tuple [v, d])]⟩
        else if !PyList_Check d then
          .threw ⟨phi,
            some ⟨.TypeError,
              "Derived parameters must be a list (element 1 of loglikelihood return)"⟩,
            [.decref list_theta, .decref (PyObj.tuple [v, d])]⟩
        else if PyList_Size d != nDerived then
          .threw ⟨phi,
            some ⟨.ValueError,
              "Derived parameters must have length nDerived (element 1 of loglikelihood return)"⟩,
            [.decref list_theta, .decref (PyObj.tuple [v, d])]⟩
        else
          match list_Py2C_double d phi with
          | .undefined => .undefined
          | .threw phi1 =>
            .threw ⟨phi1,
              some ⟨.TypeError,
                "Derived parameters must be a list of floats (element 1 of loglikelihood return)"⟩,
              []⟩
          | .returned _ phi1 =>
            .returned (PyFloat_AsDouble v)
              ⟨phi1, none, [.decref list_theta, .decref (PyObj.tuple [v, d])]⟩ := by
    unfold loglikelihood
    simp only [htheta, hcall]
    simp [PyTuple_Check, PyTuple_Size, PyTuple_GetItem]
  rw [hunf]
  constructor
  · constructor
    · intro h x hx
      subst hx
      simp only [PyFloat_Check, Bool.not_true, Bool.false_eq_true, if_false] at h
      split at h
      · simp at h
      · split at h
        · simp at h
        · split at h <;> simp at h
    · intro h
      have hv : PyFloat_Check v = false := by
        cases v <;> first | rfl | exact absurd rfl (h _)
      simp [hv]
  · intro r st h
    cases v with
    | float x =>
      simp only [PyFloat_Check, Bool.not_true, Bool.false_eq_true, if_false] at h
      split at h
      · simp at h
      · split at h
        · simp at h
        · split at h
          · simp at h
          · simp at h
          · simp only [PyFloat_AsDouble, Completion.returned.injEq] at h
            rw [h.1]
    | _ => simp [PyFloat_Check] at h

/-- Claim C16, amended, at a pair whose first element is the string `"nan"`. -/
theorem loglikelihood_logL_must_be_float_witness :
    loglikelihood
        (fun _ _ => some (PyObj.tuple [PyObj.str "nan",
          PyObj.list [PyObj.float ⟨0x3FF0000000000000⟩]]))
        (some (PyObj.other 0)) [⟨0⟩] 1 [⟨5⟩] 1
      = .threw ⟨[⟨5⟩],
          some ⟨.TypeError, "loglikelihood must be a float (element 0 of loglikelihood return)"⟩,
          [.decref (PyObj.list [PyObj.float ⟨0⟩]),
           .decref (PyObj.tuple [PyObj.str "nan",
             PyObj.list [PyObj.float ⟨0x3FF0000000000000⟩]])]⟩ :=
  (loglikelihood_logL_must_be_float _ (some (PyObj.other 0)) [⟨0⟩] 1 [⟨5⟩] 1
    (PyObj.list [PyObj.float ⟨0⟩]) (PyObj.str "nan")
    (PyObj.list [PyObj.float ⟨0x3FF0000000000000⟩]) rfl rfl).1.mpr
    (fun _ h => PyObj.noConfusion h)

/-- Claim C17 does not hold of the code.  With `grade_frac = [1.0, 2.0]` and
`grade_dims = [1, 2, 3]` the array `grade_dims` has `nGrade = 2` cells, and the
conversion of the three-element list writes `grade_dims[2]` (line 84) before the
lengths are compared (line 281): the write is outside the array. -/
theorem grade_dims_conversion_overruns_array :
    list_Py2C_int true (PyObj.list [PyObj.long 1, PyObj.long 2, PyObj.long 3]) [0, 0]
        = .undefined ∧
      gradeDimsConversion true
        ⟨PyObj.other 1, PyObj.other 2, exampleSettings 6,
          [PyObj.float ⟨1⟩, PyObj.float ⟨2⟩],
          [PyObj.long 1, PyObj.long 2, PyObj.long 3], []⟩ = .undefined ∧
      run_PyPolyChord true (fun _ _ => none) (fun _ _ _ => EngineExit.completed) ⟨none, none⟩
        (some ⟨PyObj.other 1, PyObj.other 2, exampleSettings 6,
          [PyObj.float ⟨1⟩, PyObj.float ⟨2⟩],
          [PyObj.long 1, PyObj.long 2, PyObj.long 3], []⟩)
      = .undefined :=
  ⟨rfl, rfl, rfl⟩

/-- Claim C18, registry atomicity on validation failure.  For every run
invocation that fails at argument parsing, at a grade conversion, at the length
check, at the sum check or at the schedule conversion, the run returns `NULL`
with the globals `python_loglikelihood` and `python_prior` exactly as they were,
and its reference-count operations are operations on the three container
arguments only (none on the supplied callables); and a run that returns with the
globals changed has called the engine. -/
theorem run_registry_unchanged_on_validation_failure (PYTHON3 : Bool)
    (call : Option PyObj → PyObj → Option PyObj)
    (run_polychord : Engine) (reg : Registry) (parsed : Option RunArgs) :
    (parsed = none →
        run_PyPolyChord PYTHON3 call run_polychord reg parsed
          = .returned none ⟨reg, none, [], false⟩) ∧
      (∀ a, parsed = some a →
        ((∃ x, gradeFracConversion a = .threw x) ∨
          (∃ f1 x, gradeFracConversion a = .returned () f1 ∧
            gradeDimsConversion PYTHON3 a = .threw x) ∨
          (∃ f1 d1, gradeFracConversion a = .returned () f1 ∧
            gradeDimsConversion PYTHON3 a = .returned () d1 ∧
            (a.py_grade_frac.length ≠ a.py_grade_dims.length ∨
              sumLoop (d1.take a.py_grade_frac.length) 0 ≠ a.S.nDims ∨
              ∃ x, scheduleConversion PYTHON3 a = .threw x))) →
        ∃ st, run_PyPolyChord PYTHON3 call run_polychord reg parsed = .returned none st ∧
          st.registry = reg ∧
          (st.refs = entryRefs a ++ [.decref (PyObj.list a.py_grade_frac),
              .decref (PyObj.list a.py_grade_dims)] ∨
            st.refs = entryRefs a ∨
            st.refs = entryRefs a ++ [.decref (PyObj.dict a.py_nlives)])) ∧
      (∀ v st, run_PyPolyChord PYTHON3 call run_polychord reg parsed = .returned v st →
        st.registry ≠ reg → st.engine_called = true) := by
  refine ⟨?_, ?_, ?_⟩
  · rintro rfl; rfl
  · rintro a rfl hfail
    obtain ⟨st, h1, h2, _, h4⟩ := run_validation_failure PYTHON3 call run_polychord reg a hfail
    exact ⟨st, h1, h2, h4⟩
  · intro v st hrun hne
    cases hc : st.engine_called with
    | true => rfl
    | false =>
      exact absurd (run_engine_not_called PYTHON3 call run_polychord reg parsed v st hrun hc).2 hne

/-- Claim C18 at a run that fails the sum check (`grade_dims = [2, 2]`,
`nDims = 5`) with two callables already installed. -/
theorem run_registry_unchanged_on_validation_failure_witness :
    ∃ st, run_PyPolyChord true (fun _ _ => none) (fun _ _ _ => EngineExit.completed)
        ⟨some (PyObj.other 8), some (PyObj.other 9)⟩
        (some ⟨PyObj.other 1, PyObj.other 2, exampleSettings 5,
          [PyObj.float ⟨0⟩, PyObj.float ⟨0⟩], [PyObj.long 2, PyObj.long 2], []⟩)
        = .returned none st ∧
      st.registry = ⟨some (PyObj.other 8), some (PyObj.other 9)⟩ ∧
      (st.refs = entryRefs ⟨PyObj.other 1, PyObj.other 2, exampleSettings 5,
            [PyObj.float ⟨0⟩, PyObj.float ⟨0⟩], [PyObj.long 2, PyObj.long 2], []⟩
          ++ [.decref (PyObj.list [PyObj.float ⟨0⟩, PyObj.float ⟨0⟩]),
              .decref (PyObj.list [PyObj.long 2, PyObj.long 2])] ∨
        st.refs = entryRefs ⟨PyObj.other 1, PyObj.other 2, exampleSettings 5,
            [PyObj.float ⟨0⟩, PyObj.float ⟨0⟩], [PyObj.long 2, PyObj.long 2], []⟩ ∨
        st.refs = entryRefs ⟨PyObj.other 1, PyObj.other 2, exampleSettings 5,
            [PyObj.float ⟨0⟩, PyObj.float ⟨0⟩], [PyObj.long 2, PyObj.long 2], []⟩
          ++ [.decref (PyObj.dict [])]) :=
  (run_registry_unchanged_on_validation_failure true (fun _ _ => none)
    (fun _ _ _ => EngineExit.completed) ⟨some (PyObj.other 8), some (PyObj.other 9)⟩
    (some ⟨PyObj.other 1, PyObj.other 2, exampleSettings 5,
      [PyObj.float ⟨0⟩, PyObj.float ⟨0⟩], [PyObj.long 2, PyObj.long 2], []⟩)).2.1
    _ rfl (Or.inr (Or.inr ⟨_, _, rfl, rfl, Or.inr (Or.inl (by decide))⟩))

end PyPolyChord
